import Mathlib

/-!
Verification development for the Inferra data-analysis backend.

The definitions below are a shallow embedding of the Python sources
`backend/python-service/app/transformations.py`,
`backend/python-service/app/analyze.py` and
`backend/api/app/services/code_generator.py`.

Modelling conventions, used consistently throughout:

* A pandas `DataFrame` is a `Table`: an ordered association list from column
  names to columns.  Cell values are exact rationals (`ℚ`): the embedding
  works in exact arithmetic, so float rounding and NaN/missing cells are
  outside the model (the claims under study all restrict to finite numeric
  data).  Columns are numeric by construction, so pandas dtype checks that
  merely require a numeric column are satisfied in the model and noted where
  they occur in the source.
* A pandas `Series` is a `Col := List ℚ`, positionally aligned.
* Python exceptions are `Except String`; the carried string is the exception
  message as built by the source (messages produced by library internals that
  the source merely forwards are rendered by the model and noted as such).
* Arbitrary Python execution (`exec`) cannot be embedded; functions of the
  source that run `exec` on user code are parameterised over the outcome of
  that step, and everything before and after the `exec` call is embedded
  concretely.  A concrete "outcome" used in a theorem models the behaviour of
  one specific snippet and says so in its doc comment.
-/

/-! ## Table model -/

/-- A pandas Series in the exact-rational cell model. -/
abbrev Col := List ℚ

/-- A pandas DataFrame: ordered named columns, rows positionally aligned. -/
abbrev Table := List (String × Col)

/-- Column names of a table (`df.columns`). -/
def Table.colNames (t : Table) : List String := t.map (fun c => c.1)

/-- Column lookup (`df[column]` after a `column in df.columns` check). -/
def Table.getCol (t : Table) (name : String) : Option Col :=
  match t with
  | [] => none
  | c :: rest => if c.1 = name then some c.2 else Table.getCol rest name

/-- Row count (`len(df)`): pandas tables have all columns the same length;
the model reads the first column (0 for an empty table). -/
def Table.nrows (t : Table) : Nat :=
  match t with
  | [] => 0
  | c :: _ => c.2.length

/-- Column assignment `df[name] = series`: replaces an existing column in
place, otherwise appends the new column at the end. -/
def Table.setCol (t : Table) (name : String) (v : Col) : Table :=
  match t with
  | [] => [(name, v)]
  | c :: rest =>
      if c.1 = name then (name, v) :: rest
      else c :: Table.setCol rest name v

/-- Order minimum written with an explicit comparison, so that concrete
columns evaluate by kernel reduction; proved equal to `min` below. -/
def qmin (a b : ℚ) : ℚ := if a ≤ b then a else b

/-- Order maximum written with an explicit comparison. -/
def qmax (a b : ℚ) : ℚ := if a ≤ b then b else a

theorem qmin_eq_min (a b : ℚ) : qmin a b = min a b := (min_def a b).symm

theorem qmax_eq_max (a b : ℚ) : qmax a b = max a b := by
  unfold qmax
  rw [max_def]

theorem qmin_fn_eq : qmin = fun a b : ℚ => min a b := by
  funext a b
  exact qmin_eq_min a b

theorem qmax_fn_eq : qmax = fun a b : ℚ => max a b := by
  funext a b
  exact qmax_eq_max a b

/-- `series.min()` on a nonempty column (0 for an empty one; the theorems
using it carry nonemptiness). -/
def colMin : Col → ℚ
  | [] => 0
  | x :: xs => xs.foldl qmin x

/-- `series.max()` on a nonempty column (0 for an empty one). -/
def colMax : Col → ℚ
  | [] => 0
  | x :: xs => xs.foldl qmax x

theorem colMin_cons (x : ℚ) (xs : List ℚ) :
    colMin (x :: xs) = xs.foldl min x := by
  unfold colMin
  rw [qmin_fn_eq]

theorem colMax_cons (x : ℚ) (xs : List ℚ) :
    colMax (x :: xs) = xs.foldl max x := by
  unfold colMax
  rw [qmax_fn_eq]

theorem foldl_min_le_init (xs : List ℚ) (a : ℚ) : xs.foldl min a ≤ a := by
  induction xs generalizing a with
  | nil => simp
  | cons y ys ih =>
      simp only [List.foldl_cons]
      exact le_trans (ih (min a y)) (min_le_left a y)

theorem foldl_min_le_mem (xs : List ℚ) (a x : ℚ) (hx : x ∈ xs) :
    xs.foldl min a ≤ x := by
  induction xs generalizing a with
  | nil => cases hx
  | cons y ys ih =>
      simp only [List.foldl_cons]
      rcases List.mem_cons.mp hx with h | h
      · subst h
        exact le_trans (foldl_min_le_init ys (min a x)) (min_le_right a x)
      · exact ih (min a y) h

theorem colMin_le_mem (xs : Col) (x : ℚ) (hx : x ∈ xs) : colMin xs ≤ x := by
  cases xs with
  | nil => cases hx
  | cons y ys =>
      rcases List.mem_cons.mp hx with h | h
      · subst h; exact foldl_min_le_init ys x
      · exact foldl_min_le_mem ys y x h

theorem init_le_foldl_max (xs : List ℚ) (a : ℚ) : a ≤ xs.foldl max a := by
  induction xs generalizing a with
  | nil => simp
  | cons y ys ih =>
      simp only [List.foldl_cons]
      exact le_trans (le_max_left a y) (ih (max a y))

theorem mem_le_foldl_max (xs : List ℚ) (a x : ℚ) (hx : x ∈ xs) :
    x ≤ xs.foldl max a := by
  induction xs generalizing a with
  | nil => cases hx
  | cons y ys ih =>
      simp only [List.foldl_cons]
      rcases List.mem_cons.mp hx with h | h
      · subst h
        exact le_trans (le_max_right a x) (init_le_foldl_max ys (max a x))
      · exact ih (max a y) h

theorem mem_le_colMax (xs : Col) (x : ℚ) (hx : x ∈ xs) : x ≤ colMax xs := by
  cases xs with
  | nil => cases hx
  | cons y ys =>
      rcases List.mem_cons.mp hx with h | h
      · subst h; exact init_le_foldl_max ys x
      · exact mem_le_foldl_max ys y x h

theorem foldl_min_mem (xs : List ℚ) (a : ℚ) :
    xs.foldl min a = a ∨ xs.foldl min a ∈ xs := by
  induction xs generalizing a with
  | nil => left; rfl
  | cons y ys ih =>
      simp only [List.foldl_cons]
      rcases ih (min a y) with h | h
      · rcases min_cases a y with ⟨he, _⟩ | ⟨he, _⟩
        · left; rw [h, he]
        · right; rw [h, he]; exact List.mem_cons_self y ys
      · right; exact List.mem_cons_of_mem y h

theorem colMin_mem (xs : Col) (h : xs ≠ []) : colMin xs ∈ xs := by
  cases xs with
  | nil => exact absurd rfl h
  | cons y ys =>
      rw [colMin_cons]
      rcases foldl_min_mem ys y with he | he
      · rw [he]; exact List.mem_cons_self y ys
      · exact List.mem_cons_of_mem y he

theorem foldl_max_mem (xs : List ℚ) (a : ℚ) :
    xs.foldl max a = a ∨ xs.foldl max a ∈ xs := by
  induction xs generalizing a with
  | nil => left; rfl
  | cons y ys ih =>
      simp only [List.foldl_cons]
      rcases ih (max a y) with h | h
      · rcases max_cases a y with ⟨he, _⟩ | ⟨he, _⟩
        · left; rw [h, he]
        · right; rw [h, he]; exact List.mem_cons_self y ys
      · right; exact List.mem_cons_of_mem y h

theorem colMax_mem (xs : Col) (h : xs ≠ []) : colMax xs ∈ xs := by
  cases xs with
  | nil => exact absurd rfl h
  | cons y ys =>
      rw [colMax_cons]
      rcases foldl_max_mem ys y with he | he
      · rw [he]; exact List.mem_cons_self y ys
      · exact List.mem_cons_of_mem y he

/-! ## TransformationLibrary.normalize
(`transformations.py`, lines 64–98). -/

/-- Value part of `TransformationLibrary.normalize`: the code after the
column-existence and dtype checks.  Constant columns (`col_max == col_min`)
map every cell to `min_val`; otherwise
`min_val + (x - col_min)/(col_max - col_min) * (max_val - min_val)`. -/
def normalizeVals (xs : Col) (min_val max_val : ℚ) : Col :=
  let col_min := colMin xs
  let col_max := colMax xs
  if col_max = col_min then xs.map (fun _ => min_val)
  else xs.map (fun x => min_val + (x - col_min) / (col_max - col_min) * (max_val - min_val))

/-- `TransformationLibrary.normalize(df, column, min_val=0, max_val=1)`:
raises when the column is missing (the dtype check of the source is
satisfied by construction in the all-numeric cell model). -/
def TransformationLibrary.normalize (df : Table) (column : String)
    (min_val : ℚ := 0) (max_val : ℚ := 1) : Except String Col :=
  match df.getCol column with
  | none => .error ("Column '" ++ column ++ "' not found in dataset")
  | some xs => .ok (normalizeVals xs min_val max_val)

/-! ## TransformationLibrary.composite_score
(`transformations.py`, lines 128–197). -/

/-- Column resolution loop of `composite_score`: in a parsed formula the
`columns` argument is a list of column-name strings (the pre-computed-Series
alternative of the source can only arise from scripted calls, not from
literal formula arguments), each of which must name an existing column. -/
def resolveCols (df : Table) : List String → Except String (List Col)
  | [] => .ok []
  | c :: rest =>
      match df.getCol c with
      | none => .error ("Column '" ++ c ++ "' not found in dataset")
      | some s =>
          match resolveCols df rest with
          | .error e => .error e
          | .ok r => .ok (s :: r)

/-- Per-column min-max scaling step of `composite_score` under
`normalize_first`: a constant column becomes all zeros. -/
def minmaxScale (xs : Col) : Col :=
  let col_min := colMin xs
  let col_max := colMax xs
  if col_max = col_min then List.replicate xs.length 0
  else xs.map (fun x => (x - col_min) / (col_max - col_min))

/-- The accumulation loop of `composite_score`:
`result = Series([0.0]*len(df)); for series, weight in zip(cols, weights): result += weight*series`. -/
def weightedSum (n : Nat) (pairs : List (Col × ℚ)) : Col :=
  pairs.foldl (fun acc p => List.zipWith (fun a x => a + p.2 * x) acc p.1)
    (List.replicate n 0)

/-- Body of `composite_score` after column resolution: default weights,
length check, renormalisation, optional per-column min-max scaling and the
weighted sum.  The `weights is None` default builds
`[1.0/len(resolved)]*len(resolved)`, which in Python raises
`ZeroDivisionError` for an empty column list; the model renders that
exception's message. -/
def compositeWeighted (nrows : Nat) (resolved : List Col)
    (ws : List ℚ) (normalize_first : Bool) : Except String Col :=
  if ws.length ≠ resolved.length then
    .error ("Number of weights (" ++ toString ws.length ++
      ") must match number of columns (" ++ toString resolved.length ++ ")")
  else
    let total := ws.sum
    if total = 0 then .error "Sum of weights cannot be zero"
    else
      let ws := ws.map (fun w => w / total)
      let normalized_cols :=
        if normalize_first then resolved.map minmaxScale else resolved
      .ok (weightedSum nrows (normalized_cols.zip ws))

def compositeCore (nrows : Nat) (resolved : List Col)
    (weights : Option (List ℚ)) (normalize_first : Bool) : Except String Col :=
  match weights with
  | none =>
      if resolved.length = 0 then .error "float division by zero"
      else compositeWeighted nrows resolved
        (List.replicate resolved.length ((1 : ℚ) / resolved.length))
        normalize_first
  | some ws => compositeWeighted nrows resolved ws normalize_first

/-- `TransformationLibrary.composite_score(df, columns, weights=None,
normalize_first=True)` (`transformations.py`, lines 128–197).  The
numeric-dtype check of the source is satisfied by construction in the
all-numeric cell model. -/
def TransformationLibrary.composite_score (df : Table) (columns : List String)
    (weights : Option (List ℚ) := none) (normalize_first : Bool := true) :
    Except String Col :=
  match resolveCols df columns with
  | .error e => .error e
  | .ok resolved => compositeCore df.nrows resolved weights normalize_first

theorem mem_of_mem_zipWith {α β γ : Type} (f : α → β → γ) (as : List α)
    (bs : List β) (y : γ) (hy : y ∈ List.zipWith f as bs) :
    ∃ a ∈ as, ∃ b ∈ bs, y = f a b := by
  induction as generalizing bs with
  | nil => cases hy
  | cons a as ih =>
      cases bs with
      | nil => cases hy
      | cons b bs =>
          rcases List.mem_cons.mp hy with h | h
          · exact ⟨a, List.mem_cons_self a as, b, List.mem_cons_self b bs, h⟩
          · obtain ⟨a', ha', b', hb', he⟩ := ih bs h
            exact ⟨a', List.mem_cons_of_mem a ha', b',
              List.mem_cons_of_mem b hb', he⟩

theorem length_zipWith_acc {α β γ : Type} (f : α → β → γ) (as : List α)
    (bs : List β) : (List.zipWith f as bs).length = min as.length bs.length := by
  exact List.length_zipWith f as bs

theorem weightedSum_loop_bounds (pairs : List (Col × ℚ)) (acc : List ℚ) (S : ℚ)
    (hacc : ∀ y ∈ acc, 0 ≤ y ∧ y ≤ S)
    (hp : ∀ p ∈ pairs, (∀ x ∈ p.1, 0 ≤ x ∧ x ≤ 1) ∧ 0 ≤ p.2) :
    ∀ y ∈ pairs.foldl
        (fun acc p => List.zipWith (fun a x => a + p.2 * x) acc p.1) acc,
      0 ≤ y ∧ y ≤ S + (pairs.map (fun p => p.2)).sum := by
  induction pairs generalizing acc S with
  | nil =>
      intro y hy
      have := hacc y hy
      simpa using this
  | cons p ps ih =>
      intro y hy
      simp only [List.foldl_cons] at hy
      have hstep : ∀ z ∈ List.zipWith (fun a x => a + p.2 * x) acc p.1,
          0 ≤ z ∧ z ≤ S + p.2 := by
        intro z hz
        obtain ⟨a, ha, x, hx, he⟩ := mem_of_mem_zipWith _ acc p.1 z hz
        obtain ⟨ha0, haS⟩ := hacc a ha
        obtain ⟨hx01, hw0⟩ := hp p (List.mem_cons_self p ps)
        obtain ⟨hx0, hx1⟩ := hx01 x hx
        constructor
        · rw [he]; positivity
        · rw [he]
          have : p.2 * x ≤ p.2 * 1 := by
            exact mul_le_mul_of_nonneg_left hx1 hw0
          linarith
      have := ih (List.zipWith (fun a x => a + p.2 * x) acc p.1) (S + p.2) hstep
        (fun q hq => hp q (List.mem_cons_of_mem p hq)) y hy
      simp only [List.map_cons, List.sum_cons] at this ⊢
      constructor
      · exact this.1
      · linarith [this.2]

theorem minmaxScale_bounds (xs : Col) : ∀ y ∈ minmaxScale xs, 0 ≤ y ∧ y ≤ 1 := by
  intro y hy
  unfold minmaxScale at hy
  by_cases h : colMax xs = colMin xs
  · rw [if_pos h] at hy
    have := List.eq_of_mem_replicate hy
    subst this
    exact ⟨le_refl 0, by norm_num⟩
  · rw [if_neg h] at hy
    obtain ⟨x, hx, he⟩ := List.mem_map.mp hy
    have hxe : xs ≠ [] := by
      intro hnil
      subst hnil
      cases hx
    have hmin : colMin xs ≤ x := colMin_le_mem xs x hx
    have hmax : x ≤ colMax xs := mem_le_colMax xs x hx
    have hlt : colMin xs < colMax xs := by
      rcases lt_or_eq_of_le (le_trans hmin hmax) with h1 | h1
      · exact h1
      · exact absurd h1.symm h
    have hpos : 0 < colMax xs - colMin xs := by linarith
    subst he
    constructor
    · exact div_nonneg (by linarith) (le_of_lt hpos)
    · rw [div_le_one hpos]; linarith

theorem sum_map_div (w : List ℚ) (t : ℚ) :
    (w.map (fun x => x / t)).sum = w.sum / t := by
  induction w with
  | nil => simp
  | cons a l ih => simp [ih, add_div]

theorem resolveCols_length (df : Table) (cs : List String) (cols : List Col)
    (h : resolveCols df cs = .ok cols) : cols.length = cs.length := by
  induction cs generalizing cols with
  | nil =>
      simp only [resolveCols] at h
      cases h
      rfl
  | cons c rest ih =>
      simp only [resolveCols] at h
      cases hg : df.getCol c with
      | none => rw [hg] at h; cases h
      | some s =>
          rw [hg] at h
          cases hr : resolveCols df rest with
          | error e => rw [hr] at h; cases h
          | ok r =>
              rw [hr] at h
              cases h
              simp [ih r hr]

theorem sum_map_mul_const (w : List ℚ) (c : ℚ) :
    (w.map (fun x => c * x)).sum = c * w.sum := by
  induction w with
  | nil => simp
  | cons a l ih => simp [ih, mul_add]

theorem zip_map_snd {α β : Type} (as : List α) (bs : List β)
    (h : as.length = bs.length) : (as.zip bs).map Prod.snd = bs := by
  induction as generalizing bs with
  | nil =>
      cases bs with
      | nil => rfl
      | cons b bs => cases h
  | cons a as ih =>
      cases bs with
      | nil => cases h
      | cons b bs =>
          simp only [List.zip_cons_cons, List.map_cons]
          rw [ih bs (by simpa using h)]

theorem compositeWeighted_eval (nrows : Nat) (cols : List Col) (ws : List ℚ)
    (nf : Bool) (hlen : ws.length = cols.length) (hs : ws.sum ≠ 0) :
    compositeWeighted nrows cols ws nf
      = .ok (weightedSum nrows
          ((if nf then cols.map minmaxScale else cols).zip
            (ws.map (fun x => x / ws.sum)))) := by
  unfold compositeWeighted
  rw [if_neg (by simp [hlen])]
  simp only []
  rw [if_neg hs]

theorem compositeWeighted_zero (nrows : Nat) (cols : List Col) (ws : List ℚ)
    (hlen : ws.length = cols.length) (hz : ws.sum = 0) :
    compositeWeighted nrows cols ws true
      = .error "Sum of weights cannot be zero" := by
  unfold compositeWeighted
  rw [if_neg (by simp [hlen])]
  simp only []
  rw [if_pos hz]

theorem composite_score_some (df : Table) (columns : List String)
    (cols : List Col) (ws : List ℚ) (nf : Bool)
    (hres : resolveCols df columns = .ok cols) :
    TransformationLibrary.composite_score df columns (some ws) nf
      = compositeWeighted df.nrows cols ws nf := by
  unfold TransformationLibrary.composite_score
  rw [hres]
  rfl

/-- C4: for `composite_score` with `normalize_first=True` and columns that
resolve, a positive weight vector is renormalised to sum to 1 regardless of
its scale (scaling all weights by a positive constant leaves the result
unchanged, and a zero-sum weight vector of the right length is rejected with
the source's error), and every element of the resulting column lies within
[0, 1]. -/
theorem composite_score_unit_interval
    (df : Table) (columns : List String) (cols : List Col) (w : List ℚ)
    (hres : resolveCols df columns = .ok cols)
    (hlen : w.length = columns.length)
    (hpos : ∀ x ∈ w, 0 < x)
    (hne : w ≠ []) :
    ((w.map (fun x => x / w.sum)).sum = 1) ∧
    (∀ c : ℚ, 0 < c →
      TransformationLibrary.composite_score df columns
          (some (w.map (fun x => c * x))) true
        = TransformationLibrary.composite_score df columns (some w) true) ∧
    (∀ w' : List ℚ, w'.length = columns.length → w'.sum = 0 →
      TransformationLibrary.composite_score df columns (some w') true
        = .error "Sum of weights cannot be zero") ∧
    (∃ ys, TransformationLibrary.composite_score df columns (some w) true
        = .ok ys ∧ ∀ y ∈ ys, 0 ≤ y ∧ y ≤ 1) := by
  have hcl : cols.length = columns.length := resolveCols_length df columns cols hres
  have hwlen : w.length = cols.length := by rw [hlen, hcl]
  have hsum : 0 < w.sum := List.sum_pos w hpos hne
  have hsum0 : w.sum ≠ 0 := ne_of_gt hsum
  have hnorm : (w.map (fun x => x / w.sum)).sum = 1 := by
    rw [sum_map_div, div_self hsum0]
  refine ⟨hnorm, ?_, ?_, ?_⟩
  · intro c hc
    have hc0 : c ≠ 0 := ne_of_gt hc
    have hlenc : (w.map (fun x => c * x)).length = cols.length := by
      simpa using hwlen
    have hsumc : (w.map (fun x => c * x)).sum = c * w.sum := sum_map_mul_const w c
    have hsumc0 : (w.map (fun x => c * x)).sum ≠ 0 := by
      rw [hsumc]; exact mul_ne_zero hc0 hsum0
    rw [composite_score_some df columns cols _ true hres,
      composite_score_some df columns cols _ true hres,
      compositeWeighted_eval _ _ _ _ hlenc hsumc0,
      compositeWeighted_eval _ _ _ _ hwlen hsum0]
    have hmaps : (w.map (fun x => c * x)).map
        (fun x => x / (w.map (fun x => c * x)).sum)
        = w.map (fun x => x / w.sum) := by
      rw [hsumc, List.map_map]
      apply List.map_congr_left
      intro x _
      simp only [Function.comp_apply]
      exact mul_div_mul_left x w.sum hc0
    rw [hmaps]
  · intro w' hl hz
    have hl' : w'.length = cols.length := by rw [hl, hcl]
    rw [composite_score_some df columns cols _ true hres,
      compositeWeighted_zero _ _ _ hl' hz]
  · rw [composite_score_some df columns cols _ true hres,
      compositeWeighted_eval _ _ _ _ hwlen hsum0]
    refine ⟨_, rfl, ?_⟩
    intro y hy
    simp only [if_pos] at hy
    have hmem := weightedSum_loop_bounds
      ((cols.map minmaxScale).zip (w.map (fun x => x / w.sum)))
      (List.replicate df.nrows 0) 0
      (by intro z hz
          have := List.eq_of_mem_replicate hz
          subst this
          exact ⟨le_refl 0, le_refl 0⟩)
      (by intro p hp
          have hz := List.of_mem_zip hp
          obtain ⟨xs, _, hxe⟩ := List.mem_map.mp hz.1
          constructor
          · intro x hx
            rw [← hxe] at hx
            exact minmaxScale_bounds xs x hx
          · obtain ⟨v, hv, hve⟩ := List.mem_map.mp hz.2
            rw [← hve]
            exact div_nonneg (le_of_lt (hpos v hv)) (le_of_lt hsum))
      y hy
    have hlens : (cols.map minmaxScale).length
        = (w.map (fun x => x / w.sum)).length := by
      simp [hwlen]
    rw [zip_map_snd _ _ hlens, hnorm] at hmem
    constructor
    · exact hmem.1
    · linarith [hmem.2]

/-- Witness for C4 at the concrete two-column table
`{a: [1, 3], b: [2, 4]}` with weights `[2, 1]`. -/
theorem composite_score_unit_interval_witness :
    ∃ ys, TransformationLibrary.composite_score
        [("a", [1, 3]), ("b", [2, 4])] ["a", "b"] (some [2, 1]) true
      = .ok ys ∧ ∀ y ∈ ys, 0 ≤ y ∧ y ≤ 1 :=
  (composite_score_unit_interval [("a", [1, 3]), ("b", [2, 4])] ["a", "b"]
    [[1, 3], [2, 4]] [2, 1] (by rfl) (by rfl) (by decide) (by decide)).2.2.2

/-- The literal reading of the spec sentence "for all numeric columns,
`normalize(column, 0, 1)` maps the minimum value to exactly 0.0 and the
maximum to exactly 1.0", as a predicate on one table and column. -/
def normalizeMapsExtremes (df : Table) (column : String) : Prop :=
  ∀ xs : Col, df.getCol column = some xs → xs ≠ [] →
    ∃ ys : Col, TransformationLibrary.normalize df column 0 1 = .ok ys ∧
      ∀ (i : Nat) (x : ℚ), xs[i]? = some x →
        (x = colMin xs → ys[i]? = some 0) ∧
        (x = colMax xs → ys[i]? = some 1)

/-- C5 counterexample: on the constant column `[5, 5]` the source takes the
`col_max == col_min` fallback and maps every value — including the column's
maximum — to `min_val = 0`, not to 1, so the unqualified min-to-0/max-to-1
sentence is false for constant columns. -/
theorem normalize_extremes_counterexample :
    ¬ normalizeMapsExtremes [("c", [5, 5])] "c" := by
  intro h
  obtain ⟨ys, hys, hall⟩ := h [5, 5] rfl (by simp)
  have hcomp : TransformationLibrary.normalize [("c", [(5 : ℚ), 5])] "c" 0 1
      = .ok [0, 0] := rfl
  rw [hcomp] at hys
  have hysv : ys = [0, 0] := (Except.ok.inj hys).symm
  subst hysv
  have hmax := (hall 0 5 rfl).2 (by decide)
  simp at hmax

/-- Pointwise value of `normalizeVals` on a non-constant column. -/
theorem normalizeVals_getElem (xs : Col) (minv maxv : ℚ)
    (hne : colMax xs ≠ colMin xs) (i : Nat) :
    (normalizeVals xs minv maxv)[i]? = (xs[i]?).map
      (fun x => minv + (x - colMin xs) / (colMax xs - colMin xs) * (maxv - minv)) := by
  unfold normalizeVals
  simp only [if_neg hne]
  rw [List.getElem?_map]

/-- C5 as amended: for a column whose minimum and maximum differ,
`normalize(column, 0, 1)` maps every cell equal to the column minimum to
exactly 0 and every cell equal to the column maximum to exactly 1; for a
constant column the source's defined fallback maps every cell to `min_val`
instead of raising. -/
theorem normalize_minmax_amended (df : Table) (column : String) (xs : Col)
    (h : df.getCol column = some xs) :
    (colMax xs ≠ colMin xs →
      ∃ ys : Col, TransformationLibrary.normalize df column 0 1 = .ok ys ∧
        ∀ (i : Nat) (x : ℚ), xs[i]? = some x →
          (x = colMin xs → ys[i]? = some 0) ∧
          (x = colMax xs → ys[i]? = some 1)) ∧
    (∀ min_val max_val : ℚ, colMax xs = colMin xs →
      ∃ ys : Col, TransformationLibrary.normalize df column min_val max_val
          = .ok ys ∧ ∀ y ∈ ys, y = min_val) := by
  constructor
  · intro hne
    refine ⟨normalizeVals xs 0 1, ?_, ?_⟩
    · unfold TransformationLibrary.normalize
      rw [h]
    · intro i x hx
      have hd0 : colMax xs - colMin xs ≠ 0 := by
        intro hz
        exact absurd (by linarith : colMax xs = colMin xs) hne
      constructor
      · intro hmin
        rw [normalizeVals_getElem xs 0 1 hne i, hx, hmin]
        simp
      · intro hmax
        rw [normalizeVals_getElem xs 0 1 hne i, hx, hmax]
        simp [div_self hd0]
  · intro min_val max_val hconst
    refine ⟨normalizeVals xs min_val max_val, ?_, ?_⟩
    · unfold TransformationLibrary.normalize
      rw [h]
    · intro y hy
      unfold normalizeVals at hy
      rw [if_pos hconst] at hy
      obtain ⟨x, _, he⟩ := List.mem_map.mp hy
      exact he.symm

/-- Witness for the amended C5 at the concrete column `s = [2, 4]` (and the
constant column `c = [5, 5]` for the fallback clause). -/
theorem normalize_minmax_amended_witness :
    (∃ ys : Col, TransformationLibrary.normalize [("s", [2, 4])] "s" 0 1
        = .ok ys ∧
        ∀ (i : Nat) (x : ℚ), (([2, 4] : Col))[i]? = some x →
          (x = colMin [2, 4] → ys[i]? = some 0) ∧
          (x = colMax [2, 4] → ys[i]? = some 1)) ∧
    (∃ ys : Col, TransformationLibrary.normalize [("c", [5, 5])] "c" 3 7
        = .ok ys ∧ ∀ y ∈ ys, y = 3) := by
  constructor
  · exact (normalize_minmax_amended [("s", [2, 4])] "s" [2, 4] rfl).1
      (by decide)
  · exact (normalize_minmax_amended [("c", [5, 5])] "c" [5, 5] rfl).2 3 7
      (by decide)

/-! ## Formula parsing for `execute_transformation`
(`analyze.py`, lines 476–541).

The source parses the formula with Python's `ast.parse(mode='eval')` and then
walks the tree: the expression must be a single `Call` whose callee is a bare
identifier and whose arguments are literals.  The embedding implements a
tokenizer and a recogniser for exactly that restricted grammar; formulas
outside it (arbitrary Python expressions that `ast.parse` accepts and the
later literal checks reject) are mapped to the closest of the source's error
messages, and the divergences are noted on the definitions. -/

/-- Tokens of the restricted formula grammar. -/
inductive Tok
  | ident (s : String)
  | num (q : ℚ)
  | str (s : String)
  | lparen | rparen | lbrack | rbrack | lbrace | rbrace
  | comma | eq | eqeq | colon | minus | plus | dot
  | other (c : Char)
deriving DecidableEq

/-- Literal argument values (`ast.literal_eval` results): strings, numbers,
booleans, `None`, lists and dicts. -/
inductive Lit
  | num (q : ℚ)
  | str (s : String)
  | bool (b : Bool)
  | none
  | list (l : List Lit)
  | dict (l : List (Lit × Lit))

/-- Characters allowed inside an identifier after the first. -/
def isIdentChar (c : Char) : Bool := c.isAlpha || c.isDigit || c = '_'

/-- Longest identifier prefix of a character list. -/
def takeIdentChars : List Char → List Char × List Char
  | [] => ([], [])
  | c :: rest =>
      if isIdentChar c then
        let p := takeIdentChars rest
        (c :: p.1, p.2)
      else ([], c :: rest)

/-- Longest digit prefix of a character list. -/
def takeDigits : List Char → List Char × List Char
  | [] => ([], [])
  | c :: rest =>
      if c.isDigit then
        let p := takeDigits rest
        (c :: p.1, p.2)
      else ([], c :: rest)

def digitsToNat (ds : List Char) : Nat :=
  ds.foldl (fun a c => a * 10 + (c.toNat - 48)) 0

/-- Body of a quoted string: the characters up to the closing quote `q`, and
the rest.  `none` when the string is unterminated.  (Escape sequences are not
modelled; a formula whose string literals contain backslash escapes is
outside the embedding.) -/
def takeStr (q : Char) : List Char → Option (List Char × List Char)
  | [] => Option.none
  | c :: rest =>
      if c = q then some ([], rest)
      else
        match takeStr q rest with
        | Option.none => Option.none
        | some (a, r) => some (c :: a, r)

theorem takeStr_shorter (q : Char) (cs a r : List Char)
    (h : takeStr q cs = some (a, r)) : r.length < cs.length := by
  induction cs generalizing a r with
  | nil => cases h
  | cons c rest ih =>
      unfold takeStr at h
      by_cases hc : c = q
      · rw [if_pos hc] at h
        cases h
        simp
      · rw [if_neg hc] at h
        cases hr : takeStr q rest with
        | none => rw [hr] at h; cases h
        | some p =>
            rw [hr] at h
            cases h
            have := ih p.1 p.2 hr
            simp
            omega

theorem takeIdentChars_shorter (cs : List Char) :
    (takeIdentChars cs).2.length ≤ cs.length := by
  induction cs with
  | nil => simp [takeIdentChars]
  | cons c rest ih =>
      unfold takeIdentChars
      by_cases hc : isIdentChar c
      · rw [if_pos hc]
        exact Nat.le_succ_of_le ih
      · rw [if_neg hc]

theorem takeDigits_shorter (cs : List Char) :
    (takeDigits cs).2.length ≤ cs.length := by
  induction cs with
  | nil => simp [takeDigits]
  | cons c rest ih =>
      unfold takeDigits
      by_cases hc : c.isDigit
      · rw [if_pos hc]
        exact Nat.le_succ_of_le ih
      · rw [if_neg hc]

/-- One tokenization step: the next token (or `none` for skipped whitespace)
and the remaining characters, or an error message.  Always consumes at least
one character. -/
def nextTok : List Char → Except String (Option Tok × List Char)
  | [] => .error "Invalid formula syntax: empty input"
  | c :: rest =>
      if c = ' ' || c = '\t' || c = '\n' || c = '\r' then .ok (Option.none, rest)
      else if c.isAlpha || c = '_' then
        let p := takeIdentChars rest
        .ok (some (.ident (String.mk (c :: p.1))), p.2)
      else if c.isDigit then
        let p := takeDigits rest
        let intPart : ℚ := digitsToNat (c :: p.1)
        match p.2 with
        | '.' :: more =>
            let f := takeDigits more
            let frac : ℚ := (digitsToNat f.1 : ℚ) / ((10 : ℚ) ^ f.1.length)
            .ok (some (.num (intPart + frac)), f.2)
        | r => .ok (some (.num intPart), r)
      else if c = '\'' || c = '"' then
        match takeStr c rest with
        | Option.none => .error "Invalid formula syntax: unterminated string literal"
        | some (a, r) => .ok (some (.str (String.mk a)), r)
      else if c = '(' then .ok (some .lparen, rest)
      else if c = ')' then .ok (some .rparen, rest)
      else if c = '[' then .ok (some .lbrack, rest)
      else if c = ']' then .ok (some .rbrack, rest)
      else if c = '{' then .ok (some .lbrace, rest)
      else if c = '}' then .ok (some .rbrace, rest)
      else if c = ',' then .ok (some .comma, rest)
      else if c = '=' then
        match rest with
        | '=' :: r => .ok (some .eqeq, r)
        | r => .ok (some .eq, r)
      else if c = ':' then .ok (some .colon, rest)
      else if c = '-' then .ok (some .minus, rest)
      else if c = '+' then .ok (some .plus, rest)
      else if c = '.' then .ok (some .dot, rest)
      else .ok (some (.other c), rest)

/-- Fueled tokenizer loop (fuel is the length of the input, each step
consumes at least one character). -/
def tokenizeAux (fuel : Nat) (cs : List Char) : Except String (List Tok) :=
  match fuel with
  | 0 =>
      match cs with
      | [] => .ok []
      | _ => .error "Invalid formula syntax: tokenizer fuel exhausted"
  | fuel + 1 =>
      match cs with
      | [] => .ok []
      | cs =>
          match nextTok cs with
          | .error e => .error e
          | .ok (Option.none, r) => tokenizeAux fuel r
          | .ok (some t, r) =>
              match tokenizeAux fuel r with
              | .error e => .error e
              | .ok ts => .ok (t :: ts)

/-- Tokenizer for the restricted formula grammar (the lexical part of
`ast.parse(formula, mode='eval')`). -/
def tokenize (s : String) : Except String (List Tok) :=
  tokenizeAux s.length s.data

/-- Bracket balance check over all three bracket kinds (the part of
`ast.parse`'s syntax checking the restricted grammar needs; bracket kinds are
not distinguished, a mismatch such as `(]` surfaces later as an argument
error instead — no claim depends on that corner). -/
def balancedAux : List Tok → Nat → Bool
  | [], d => d = 0
  | t :: rest, d =>
      match t with
      | .lparen | .lbrack | .lbrace => balancedAux rest (d + 1)
      | .rparen | .rbrack | .rbrace =>
          match d with
          | 0 => false
          | d + 1 => balancedAux rest d
      | _ => balancedAux rest d

def balancedToks (ts : List Tok) : Bool := balancedAux ts 0

/-- Interior of a call: the tokens between the opening parenthesis and the
matching closing parenthesis, which must be the last token. -/
def innerOfCall : List Tok → Nat → List Tok → Option (List Tok)
  | [], _, _ => Option.none
  | t :: rest, d, acc =>
      match t with
      | .rparen =>
          match d with
          | 0 => if rest = [] then some acc.reverse else Option.none
          | d + 1 => innerOfCall rest d (t :: acc)
      | .lparen | .lbrack | .lbrace => innerOfCall rest (d + 1) (t :: acc)
      | .rbrack | .rbrace =>
          match d with
          | 0 => Option.none
          | d + 1 => innerOfCall rest d (t :: acc)
      | _ => innerOfCall rest d (t :: acc)

/-- Recogniser for `ident ( ... )` covering the whole token stream: the
`isinstance(tree.body, ast.Call)` and `isinstance(tree.body.func, ast.Name)`
checks of the source. -/
def splitCall : List Tok → Option (String × List Tok)
  | .ident f :: .lparen :: rest =>
      match innerOfCall rest 0 [] with
      | some interior => some (f, interior)
      | Option.none => Option.none
  | _ => Option.none

/-- Recogniser for a call whose callee is a dotted attribute chain
(`a.b(...)`): a `Call` whose `func` is an `ast.Attribute`, not an
`ast.Name`. -/
def isDottedCall (ts : List Tok) : Bool :=
  match ts with
  | .ident _ :: rest => go rest 0
  | _ => false
where
  go : List Tok → Nat → Bool
    | .dot :: .ident _ :: rest, n => go rest (n + 1)
    | .lparen :: rest, n => n > 0 && (innerOfCall rest 0 []).isSome
    | _, _ => false

/-- The error for a well-tokenized formula that is not a bare-identifier
call, mirroring the source's two distinct messages. -/
def notACallMsg (ts : List Tok) : String :=
  if isDottedCall ts then "Function name must be a simple identifier"
  else "Formula must be a function call (e.g., 'function_name(args)')"

mutual

/-- `ast.literal_eval` on the token level: a single literal and the remaining
tokens.  Fueled; the fuel passed by `literalEval` always suffices. -/
def parseLit : Nat → List Tok → Option (Lit × List Tok)
  | 0, _ => Option.none
  | _ + 1, [] => Option.none
  | fuel + 1, t :: rest =>
      match t with
      | .num q => some (.num q, rest)
      | .minus =>
          match rest with
          | .num q :: r => some (.num (-q), r)
          | _ => Option.none
      | .plus =>
          match rest with
          | .num q :: r => some (.num q, r)
          | _ => Option.none
      | .str s => some (.str s, rest)
      | .ident s =>
          if s = "True" then some (.bool true, rest)
          else if s = "False" then some (.bool false, rest)
          else if s = "None" then some (.none, rest)
          else Option.none
      | .lbrack =>
          match rest with
          | .rbrack :: r => some (.list [], r)
          | _ =>
              match parseLitItems fuel rest with
              | some (items, r) => some (.list items, r)
              | Option.none => Option.none
      | .lbrace =>
          match rest with
          | .rbrace :: r => some (.dict [], r)
          | _ =>
              match parseDictItems fuel rest with
              | some (items, r) => some (.dict items, r)
              | Option.none => Option.none
      | _ => Option.none

/-- Comma-separated list elements up to the closing `]` (trailing comma
allowed, as in `ast.literal_eval`). -/
def parseLitItems : Nat → List Tok → Option (List Lit × List Tok)
  | 0, _ => Option.none
  | fuel + 1, ts =>
      match parseLit fuel ts with
      | Option.none => Option.none
      | some (l, r) =>
          match r with
          | .comma :: .rbrack :: r2 => some ([l], r2)
          | .comma :: r2 =>
              match parseLitItems fuel r2 with
              | some (ls, r3) => some (l :: ls, r3)
              | Option.none => Option.none
          | .rbrack :: r2 => some ([l], r2)
          | _ => Option.none

/-- Comma-separated `key: value` pairs up to the closing brace. -/
def parseDictItems : Nat → List Tok → Option (List (Lit × Lit) × List Tok)
  | 0, _ => Option.none
  | fuel + 1, ts =>
      match parseLit fuel ts with
      | Option.none => Option.none
      | some (k, r) =>
          match r with
          | .colon :: r1 =>
              match parseLit fuel r1 with
              | Option.none => Option.none
              | some (v, r2) =>
                  match r2 with
                  | .comma :: .rbrace :: r3 => some ([(k, v)], r3)
                  | .comma :: r3 =>
                      match parseDictItems fuel r3 with
                      | some (ps, r4) => some ((k, v) :: ps, r4)
                      | Option.none => Option.none
                  | .rbrace :: r3 => some ([(k, v)], r3)
                  | _ => Option.none
          | _ => Option.none

end

/-- `ast.literal_eval` of one argument slot: the slot must be exactly one
literal. -/
def literalEval (ts : List Tok) : Option Lit :=
  match parseLit (2 * ts.length + 2) ts with
  | some (l, []) => some l
  | _ => Option.none

/-- Split the interior of a call into top-level comma-separated argument
slots. -/
def splitArgsAux : List Tok → Nat → List Tok → List (List Tok) → List (List Tok)
  | [], _, cur, acc => (cur.reverse :: acc).reverse
  | t :: rest, d, cur, acc =>
      match t with
      | .comma =>
          if d = 0 then splitArgsAux rest 0 [] (cur.reverse :: acc)
          else splitArgsAux rest d (t :: cur) acc
      | .lparen | .lbrack | .lbrace => splitArgsAux rest (d + 1) (t :: cur) acc
      | .rparen | .rbrack | .rbrace => splitArgsAux rest (d - 1) (t :: cur) acc
      | _ => splitArgsAux rest d (t :: cur) acc

def splitArgs (interior : List Tok) : List (List Tok) :=
  if interior = [] then [] else splitArgsAux interior 0 [] []

/-- Rendering of a token for error messages (the model's stand-in for
`ast.unparse`; spacing may differ from CPython's renderer). -/
def renderTok : Tok → String
  | .ident s => s
  | .num q => if q.den = 1 then toString q.num else toString q
  | .str s => "'" ++ s ++ "'"
  | .lparen => "("
  | .rparen => ")"
  | .lbrack => "["
  | .rbrack => "]"
  | .lbrace => "\x7b"
  | .rbrace => "\x7d"
  | .comma => ","
  | .eq => "="
  | .eqeq => "=="
  | .colon => ":"
  | .minus => "-"
  | .plus => "+"
  | .dot => "."
  | .other c => String.mk [c]

def renderToks (ts : List Tok) : String :=
  String.intercalate " " (ts.map renderTok)

/-- The argument-extraction loops of `execute_transformation`: positional
arguments and keyword arguments are each evaluated with
`ast.literal_eval`, a failure naming the offending argument. -/
def parseSlots : List (List Tok) → Bool → Except String (List Lit × List (String × Lit))
  | [], _ => .ok ([], [])
  | slot :: rest, kwSeen =>
      match slot with
      | .ident n :: .eq :: v =>
          match literalEval v with
          | Option.none =>
              .error ("Invalid keyword argument: " ++ n ++ "=" ++ renderToks v)
          | some l =>
              match parseSlots rest true with
              | .error e => .error e
              | .ok (as, ks) => .ok (as, (n, l) :: ks)
      | _ =>
          if kwSeen then
            .error "Invalid formula syntax: positional argument follows keyword argument"
          else
            match literalEval slot with
            | Option.none => .error ("Invalid argument: " ++ renderToks slot)
            | some l =>
                match parseSlots rest false with
                | .error e => .error e
                | .ok (as, ks) => .ok (l :: as, ks)

/-- `AVAILABLE_TRANSFORMATIONS` (`transformations.py`, lines 396–408), in
source order. -/
def AVAILABLE_TRANSFORMATIONS : List String :=
  ["map_binary", "map_categorical", "normalize", "z_score", "composite_score",
   "conditional_value", "conditional_numeric", "percentile_rank",
   "bin_numeric", "log_transform", "winsorize"]

/-- `sorted(AVAILABLE_TRANSFORMATIONS)` as interpolated into the
unknown-transformation error message. -/
def sortedTransformations : List String :=
  ["bin_numeric", "composite_score", "conditional_numeric", "conditional_value",
   "log_transform", "map_binary", "map_categorical", "normalize",
   "percentile_rank", "winsorize", "z_score"]

theorem sortedTransformations_perm :
    sortedTransformations.Perm AVAILABLE_TRANSFORMATIONS := by decide

/-- The error raised for a call to an identifier outside the registry
(`analyze.py`, lines 513–517). -/
def unknownTransformationMsg (func_name : String) : String :=
  "Unknown transformation: '" ++ func_name ++
    "'. Available transformations: " ++
    String.intercalate ", " sortedTransformations

/-- Python keyword-argument binding for one parameter list: positional
arguments fill parameters in order, remaining parameters are taken from the
keyword arguments or their declared defaults.  (The messages for misbound
calls are the model's renderings of Python's `TypeError`s; no theorem
compares them.) -/
def bindArgsAux : List (String × Option Lit) → List Lit → List (String × Lit) →
    Except String (List Lit)
  | [], [], [] => .ok []
  | [], [], _ :: _ => .error "got an unexpected keyword argument"
  | [], _ :: _, _ => .error "too many positional arguments"
  | (n, _) :: ps, a :: as, kwargs =>
      if kwargs.any (fun kv => kv.1 = n) then
        .error ("got multiple values for argument '" ++ n ++ "'")
      else
        match bindArgsAux ps as kwargs with
        | .error e => .error e
        | .ok r => .ok (a :: r)
  | (n, d) :: ps, [], kwargs =>
      match kwargs.find? (fun kv => kv.1 = n) with
      | some kv =>
          match bindArgsAux ps [] (kwargs.filter (fun kv2 => kv2.1 ≠ n)) with
          | .error e => .error e
          | .ok r => .ok (kv.2 :: r)
      | Option.none =>
          match d with
          | some dv =>
              match bindArgsAux ps [] kwargs with
              | .error e => .error e
              | .ok r => .ok (dv :: r)
          | Option.none =>
              .error ("missing a required argument: '" ++ n ++ "'")

/-- Rendering of a literal inside error text (stand-in for Python's
`repr`/`str` in messages the code interpolates values into). -/
def litRender : Lit → String
  | .num q => if q.den = 1 then toString q.num else toString q
  | .str s => s
  | .bool b => cond b "True" "False"
  | .none => "None"
  | .list _ => "[...]"
  | .dict _ => "\x7b...\x7d"

/-- Decode the `weights` argument of `composite_score`: `None` or a list of
numbers. -/
def decodeWeights : Lit → Except String (Option (List ℚ))
  | .none => .ok Option.none
  | .list l =>
      match decodeNums l with
      | some ws => .ok (some ws)
      | Option.none => .error "weights must be numbers"
  | _ => .error "weights must be None or a list of numbers"
where
  decodeNums : List Lit → Option (List ℚ)
    | [] => some []
    | .num q :: rest =>
        match decodeNums rest with
        | some ws => some (q :: ws)
        | Option.none => Option.none
    | _ => Option.none

/-- Decode the `columns` argument of `composite_score`: in a literal formula
each element must be a column-name string (the Series alternative of the
source cannot be written as a literal); a non-string element raises the
source's type error. -/
def decodeColumns : List Lit → Except String (List String)
  | [] => .ok []
  | .str s :: rest =>
      match decodeColumns rest with
      | .error e => .error e
      | .ok r => .ok (s :: r)
  | l :: _ =>
      .error ("columns must be column name strings or Series, got " ++ litRender l)

/-- Dispatch step of `execute_transformation`
(`getattr(TransformationLibrary, func_name)` followed by
`func(df, *args, **kwargs)`).  Value-level adapters are given for the
transformations the theorems below exercise, `normalize` and
`composite_score`, whose values stay inside the exact-rational cell model.
The other nine registered names pass the registry check like any other (the
part every claim depends on); dispatching them is outside this embedding —
their values are non-numeric cells (the mapping, conditional and binning
transformations) or irrational (`z_score`, `log_transform`), and no theorem
evaluates them. -/
def callTransformation (func_name : String) (df : Table) (args : List Lit)
    (kwargs : List (String × Lit)) : Except String Col :=
  if func_name = "normalize" then
    match bindArgsAux
        [("column", Option.none), ("min_val", some (.num 0)), ("max_val", some (.num 1))]
        args kwargs with
    | .error e => .error e
    | .ok [column, mn, mx] =>
        match column, mn, mx with
        | .str c, .num mnv, .num mxv => TransformationLibrary.normalize df c mnv mxv
        | .str _, _, _ => .error "min_val and max_val must be numbers"
        | l, _, _ => .error ("Column '" ++ litRender l ++ "' not found in dataset")
    | .ok _ => .error "internal arity mismatch"
  else if func_name = "composite_score" then
    match bindArgsAux
        [("columns", Option.none), ("weights", some .none),
         ("normalize_first", some (.bool true))]
        args kwargs with
    | .error e => .error e
    | .ok [columns, weights, normalize_first] =>
        match columns with
        | .list cl =>
            (match decodeColumns cl with
             | .error e => .error e
             | .ok names =>
                match decodeWeights weights with
                | .error e => .error e
                | .ok ws =>
                    match normalize_first with
                    | .bool nf => TransformationLibrary.composite_score df names ws nf
                    | _ => .error "normalize_first must be a boolean")
        | _ => .error "columns must be a list"
    | .ok _ => .error "internal arity mismatch"
  else
    .error ("transformation '" ++ func_name ++ "' is outside the exact-rational embedding")

/-- Backtick normalization `formula_str.replace('`', "'")`: a
character-by-character replacement. -/
def replaceBackticks (s : String) : String :=
  String.mk (s.data.map (fun c => if c = '`' then '\'' else c))

/-- `execute_transformation(df, formula_str)` (`analyze.py`, lines 476–541):
backtick normalization, parse, call-shape checks, registry check, literal
argument extraction, dispatch; any exception from the dispatched function is
wrapped as a transformation-failed error. -/
def execute_transformation (df : Table) (formula_str : String) : Except String Col :=
  let fs := replaceBackticks formula_str
  match tokenize fs with
  | .error e => .error e
  | .ok toks =>
      if balancedToks toks then
        match splitCall toks with
        | some (func_name, interior) =>
            if func_name ∈ AVAILABLE_TRANSFORMATIONS then
              match parseSlots (splitArgs interior) false with
              | .error e => .error e
              | .ok (args, kwargs) =>
                  match callTransformation func_name df args kwargs with
                  | .error e =>
                      .error ("Transformation '" ++ func_name ++ "' failed: " ++ e)
                  | .ok col => .ok col
            else .error (unknownTransformationMsg func_name)
        | Option.none => .error (notACallMsg toks)
      else .error "Invalid formula syntax: unbalanced brackets"

/-! ## compute_variables (`analyze.py`, lines 544–677).

The three formula kinds dispatch to `dataset.eval` (pandas), to
`execute_transformation` (embedded above), or to `exec` of a Python snippet.
`dataset.eval` and `exec` are external to the repository's code, so the
evaluator is parameterised over their outcomes: an `EvalFormula` gives the
column produced (or exception raised) by `dataset.eval(formula)`, and a
`RunPython` gives the local-binding dict left behind (or the exception
raised) by `exec(formula, safe_globals, safe_locals)`, in insertion order,
as CPython builds it.  Everything around these two calls is embedded
concretely. -/

abbrev EvalFormula := String → Table → Except String Col

abbrev RunPython := String → Table → Except String (List (String × Col))

/-- One entry of `failed_variables`. -/
structure FailedVariable where
  name : String
  formula : String
  formula_type : String
  error : String
deriving DecidableEq

/-- A request entry (`DerivedVariable` pydantic model, `analyze.py`,
lines 63–67). -/
structure DerivedVariable where
  name : String
  formula : String
  formula_type : String
deriving DecidableEq

/-- `ComputeVariablesResponse` (`analyze.py`, lines 76–83).  Row records of
`sample_data` keep their exact-rational cells (the float/NaN serialisation
step of the source is the identity in this model). -/
structure ComputeVariablesResponse where
  status : String
  new_columns : List String := []
  sample_data : List (List (String × ℚ)) := []
  updated_dataset : Option Table := Option.none
  error : Option String := Option.none
  failed_variables : List FailedVariable := []

/-- The record of row `i` restricted to the selected columns
(`dataset[sample_cols]` row serialisation). -/
def rowRecord (t : Table) (colsSel : List String) (i : Nat) : List (String × ℚ) :=
  colsSel.filterMap (fun c =>
    match t.getCol c with
    | some xs =>
        match xs[i]? with
        | some v => some (c, v)
        | Option.none => Option.none
    | Option.none => Option.none)

/-- `sample_cols = new_columns if new_columns else list(dataset.columns)[:5]`
followed by `.head(5).to_dict(orient='records')`. -/
def sampleData (t : Table) (new_columns : List String) : List (List (String × ℚ)) :=
  let sample_cols := if new_columns.isEmpty then t.colNames.take 5 else new_columns
  (List.range (min 5 t.nrows)).map (fun i => rowRecord t sample_cols i)

/-- The per-variable body of the `compute_variables` loop: formula-kind
dispatch (an empty `formula_type` falls back to `"eval"`, mirroring
`variable.formula_type or "eval"`), computation, and column assignment.  For
the `"python"` kind, the snippet's locals are examined exactly as in the
source: a binding named `result` wins, otherwise the last binding in
insertion order, otherwise the must-assign error. -/
def computeOne (evalF : EvalFormula) (runPy : RunPython) (dataset : Table)
    (v : DerivedVariable) : Except String Table :=
  let formula_type := if v.formula_type = "" then "eval" else v.formula_type
  if formula_type = "eval" then
    match evalF v.formula dataset with
    | .error e => .error e
    | .ok col => .ok (dataset.setCol v.name col)
  else if formula_type = "transform" then
    match execute_transformation dataset v.formula with
    | .error e => .error e
    | .ok col => .ok (dataset.setCol v.name col)
  else if formula_type = "python" then
    match runPy v.formula dataset with
    | .error e => .error e
    | .ok safe_locals =>
        match safe_locals.find? (fun kv => kv.1 = "result") with
        | some kv => .ok (dataset.setCol v.name kv.2)
        | Option.none =>
            match safe_locals.getLast? with
            | some last => .ok (dataset.setCol v.name last.2)
            | Option.none =>
                .error "Python formula must assign to 'result' or return a value"
  else
    .error ("Invalid formula_type: '" ++ formula_type ++
      "'. Must be 'eval', 'transform', or 'python'")

/-- The `for variable in request.variables` loop: a success appends the name
to `new_columns` and carries the updated dataset forward; a failure appends
the `{name, formula, formula_type, error}` record to `failed_variables` and
continues with the previous dataset. -/
def computeLoop (evalF : EvalFormula) (runPy : RunPython) :
    Table → List DerivedVariable → Table × List String × List FailedVariable
  | ds, [] => (ds, [], [])
  | ds, v :: rest =>
      let ft := if v.formula_type = "" then "eval" else v.formula_type
      match computeOne evalF runPy ds v with
      | .ok ds2 =>
          let r := computeLoop evalF runPy ds2 rest
          (r.1, v.name :: r.2.1, r.2.2)
      | .error e =>
          let r := computeLoop evalF runPy ds rest
          (r.1, r.2.1, ⟨v.name, v.formula, ft, e⟩ :: r.2.2)

/-- `compute_variables(request)` from the point where the dataset reference
has been resolved: `loadRes` is the outcome of `load_dataset` (an external
collaborator), and the response is assembled exactly as in the source —
`status` is `"success"` when `new_columns` is non-empty, `"partial_failure"`
when it is empty, and `"error"` (with the message) when loading raised. -/
def compute_variables (loadRes : Except String Table) (evalF : EvalFormula)
    (runPy : RunPython) (vars : List DerivedVariable) :
    ComputeVariablesResponse :=
  match loadRes with
  | .error e => { status := "error", error := some e }
  | .ok dataset =>
      let r := computeLoop evalF runPy dataset vars
      let new_columns := r.2.1
      { status := if new_columns.isEmpty then "partial_failure" else "success"
        new_columns := new_columns
        sample_data := sampleData r.1 new_columns
        updated_dataset := some r.1
        failed_variables := r.2.2 }

theorem computeLoop_partition (evalF : EvalFormula) (runPy : RunPython)
    (vars : List DerivedVariable) (ds : Table) :
    ((computeLoop evalF runPy ds vars).2.1.length
      + (computeLoop evalF runPy ds vars).2.2.length = vars.length) ∧
    (∀ nm : String,
      (computeLoop evalF runPy ds vars).2.1.count nm
        + ((computeLoop evalF runPy ds vars).2.2.filter
            (fun f => f.name = nm)).length
        = (vars.filter (fun v => v.name = nm)).length) := by
  induction vars generalizing ds with
  | nil => simp [computeLoop]
  | cons v rest ih =>
      unfold computeLoop
      cases hc : computeOne evalF runPy ds v with
      | ok ds2 =>
          simp only []
          constructor
          · have := (ih ds2).1
            simp only [List.length_cons]
            omega
          · intro nm
            have := (ih ds2).2 nm
            by_cases hn : v.name = nm
            · simp [List.count_cons, List.filter_cons, hn, this]
              omega
            · simp [List.count_cons, List.filter_cons, hn, this]
      | error e =>
          simp only []
          constructor
          · have := (ih ds).1
            simp only [List.length_cons]
            omega
          · intro nm
            have := (ih ds).2 nm
            by_cases hn : v.name = nm
            · simp [List.count_cons, List.filter_cons, hn, this]
              omega
            · simp [List.count_cons, List.filter_cons, hn, this]

/-- C2: for every batch whose dataset loads, each input spec contributes to
exactly one of `new_columns` and `failed_variables` (counted per name), and
on the concrete two-variable batch with one malformed and one valid
transform formula the response carries exactly the valid name in
`new_columns` and exactly the malformed spec — with its name, formula,
formula kind and error message — in `failed_variables`. -/
theorem compute_variables_partition
    (t : Table) (evalF : EvalFormula) (runPy : RunPython)
    (vars : List DerivedVariable) :
    ((compute_variables (.ok t) evalF runPy vars).new_columns.length
      + (compute_variables (.ok t) evalF runPy vars).failed_variables.length
      = vars.length) ∧
    (∀ nm : String,
      (compute_variables (.ok t) evalF runPy vars).new_columns.count nm
        + ((compute_variables (.ok t) evalF runPy vars).failed_variables.filter
            (fun f => f.name = nm)).length
        = (vars.filter (fun v => v.name = nm)).length) ∧
    (∀ (evalF2 : EvalFormula) (runPy2 : RunPython),
      (compute_variables (.ok [("x", [1, 2, 3])]) evalF2 runPy2
        [⟨"bad", "normalize('x", "transform"⟩,
         ⟨"good", "normalize('x')", "transform"⟩]).new_columns = ["good"] ∧
      (compute_variables (.ok [("x", [1, 2, 3])]) evalF2 runPy2
        [⟨"bad", "normalize('x", "transform"⟩,
         ⟨"good", "normalize('x')", "transform"⟩]).failed_variables
        = [⟨"bad", "normalize('x", "transform",
            "Invalid formula syntax: unterminated string literal"⟩] ∧
      (compute_variables (.ok [("x", [1, 2, 3])]) evalF2 runPy2
        [⟨"bad", "normalize('x", "transform"⟩,
         ⟨"good", "normalize('x')", "transform"⟩]).status = "success") := by
  refine ⟨?_, ?_, ?_⟩
  · exact (computeLoop_partition evalF runPy vars t).1
  · exact (computeLoop_partition evalF runPy vars t).2
  · intro evalF2 runPy2
    exact ⟨rfl, rfl, rfl⟩

/-- C10: the response status is `"success"` exactly when at least one
variable of the batch succeeded (`new_columns` non-empty),
`"partial_failure"` exactly when every variable failed, and `"error"` (with
the message) exactly when the batch-level dataset load raised. -/
theorem compute_variables_status
    (evalF : EvalFormula) (runPy : RunPython) (vars : List DerivedVariable) :
    (∀ t : Table,
      ((compute_variables (.ok t) evalF runPy vars).status = "success"
        ↔ (compute_variables (.ok t) evalF runPy vars).new_columns ≠ []) ∧
      ((compute_variables (.ok t) evalF runPy vars).status = "partial_failure"
        ↔ (compute_variables (.ok t) evalF runPy vars).new_columns = [])) ∧
    (∀ e : String, compute_variables (.error e) evalF runPy vars
      = { status := "error", error := some e }) := by
  constructor
  · intro t
    unfold compute_variables
    simp only []
    by_cases h : (computeLoop evalF runPy t vars).2.1.isEmpty
    · rw [if_pos h]
      constructor
      · constructor
        · intro hc
          exact absurd hc (by decide)
        · intro hc
          exact absurd (List.isEmpty_iff.mp h) hc
      · constructor
        · intro _; exact List.isEmpty_iff.mp h
        · intro _; rfl
    · rw [if_neg h]
      constructor
      · constructor
        · intro _ hnil
          exact h (List.isEmpty_iff.mpr hnil)
        · intro _; rfl
      · constructor
        · intro hc
          exact absurd hc (by decide)
        · intro hc
          exact absurd (List.isEmpty_iff.mpr hc) h
  · intro e
    rfl

/-- Models `exec` of a snippet such as `a = df['x'] + 1` followed by
`b = df['x'] + 2`: it terminates normally leaving two new local bindings,
`a` then `b` in insertion order, and no binding named `result`. -/
def runPyTwoLocals : RunPython := fun _ _ => .ok [("a", [1, 1]), ("b", [2, 2])]

/-- Models `exec` of a snippet that assigns `result` (after a scratch
binding): locals are `tmp` then `result` in insertion order. -/
def runPyWithResult : RunPython := fun _ _ => .ok [("tmp", [9, 9]), ("result", [1, 2])]

/-- Models `exec` of a snippet that only prints: no new local bindings. -/
def runPyNoLocals : RunPython := fun _ _ => .ok []

/-- A `dataset.eval` outcome that is never consulted (the variables in the
theorems using it are all of the `python` kind). -/
def evalUnused : EvalFormula := fun _ _ => .error "eval outcome not consulted"

/-- C7 counterexample: a Script-kind snippet that leaves two new local
bindings and no `result` does not raise — the source's fallback takes the
last binding in insertion order (`list(safe_locals.values())[-1]`), so the
variable succeeds with column `b` and no failure entry is recorded, where
the claim requires a `MissingResultVariableError`. -/
theorem compute_python_counterexample :
    (compute_variables (.ok [("x", [0, 0])]) evalUnused runPyTwoLocals
        [⟨"v", "a = 1\nb = 2", "python"⟩]).failed_variables = [] ∧
    (compute_variables (.ok [("x", [0, 0])]) evalUnused runPyTwoLocals
        [⟨"v", "a = 1\nb = 2", "python"⟩]).new_columns = ["v"] ∧
    (compute_variables (.ok [("x", [0, 0])]) evalUnused runPyTwoLocals
        [⟨"v", "a = 1\nb = 2", "python"⟩]).updated_dataset
      = some [("x", [0, 0]), ("v", [2, 2])] :=
  ⟨rfl, rfl, rfl⟩

/-- C7 as amended: after a Script-kind snippet executes, the new column is
the local binding named `result` if one was set; otherwise it is the LAST
new local binding whenever at least one exists (not only when exactly one
exists); only when the snippet leaves no new local binding at all does the
variable fail, with the must-assign `ValueError` (the spec's
`MissingResultVariableError`) recorded for it. -/
theorem compute_python_amended (evalF : EvalFormula) (runPy : RunPython)
    (ds : Table) (v : DerivedVariable) (safe_locals : List (String × Col))
    (hft : v.formula_type = "python")
    (hrun : runPy v.formula ds = .ok safe_locals) :
    (∀ kv, safe_locals.find? (fun x => x.1 = "result") = some kv →
      computeOne evalF runPy ds v = .ok (ds.setCol v.name kv.2)) ∧
    (safe_locals.find? (fun x => x.1 = "result") = Option.none →
      ∀ last, safe_locals.getLast? = some last →
        computeOne evalF runPy ds v = .ok (ds.setCol v.name last.2)) ∧
    (safe_locals = [] →
      computeOne evalF runPy ds v
        = .error "Python formula must assign to 'result' or return a value") := by
  have hbase : computeOne evalF runPy ds v =
      (match safe_locals.find? (fun kv => kv.1 = "result") with
       | some kv => .ok (ds.setCol v.name kv.2)
       | Option.none =>
           match safe_locals.getLast? with
           | some last => .ok (ds.setCol v.name last.2)
           | Option.none =>
               .error "Python formula must assign to 'result' or return a value") := by
    unfold computeOne
    rw [hft, hrun]
    rfl
  refine ⟨?_, ?_, ?_⟩
  · intro kv hkv
    rw [hbase, hkv]
  · intro hnone last hlast
    rw [hbase, hnone, hlast]
  · intro hnil
    subst hnil
    rw [hbase]
    rfl

/-- Witness for the amended C7: the three snippet outcomes above, each
driven through `computeOne` at a concrete variable and table. -/
theorem compute_python_amended_witness :
    (computeOne evalUnused runPyWithResult [("x", [0, 0])] ⟨"v", "s", "python"⟩
      = .ok [("x", [0, 0]), ("v", [1, 2])]) ∧
    (computeOne evalUnused runPyTwoLocals [("x", [0, 0])] ⟨"v", "s", "python"⟩
      = .ok [("x", [0, 0]), ("v", [2, 2])]) ∧
    (computeOne evalUnused runPyNoLocals [("x", [0, 0])] ⟨"v", "s", "python"⟩
      = .error "Python formula must assign to 'result' or return a value") := by
  refine ⟨?_, ?_, ?_⟩
  · exact (compute_python_amended evalUnused runPyWithResult [("x", [0, 0])]
      ⟨"v", "s", "python"⟩ [("tmp", [9, 9]), ("result", [1, 2])] rfl rfl).1
      ("result", [1, 2]) rfl
  · exact (compute_python_amended evalUnused runPyTwoLocals [("x", [0, 0])]
      ⟨"v", "s", "python"⟩ [("a", [1, 1]), ("b", [2, 2])] rfl rfl).2.1
      rfl ("b", [2, 2]) rfl
  · exact (compute_python_amended evalUnused runPyNoLocals [("x", [0, 0])]
      ⟨"v", "s", "python"⟩ [] rfl rfl).2.2 rfl

/-- C6: a Transform-kind formula that parses as a single call to a bare
identifier outside the dispatch registry is rejected with the
unknown-transformation error, whose message interpolates the unknown
function name and the comma-joined sorted list of all registered names (a
permutation of the registry) — the table is never consulted and no silent
no-op is possible, the call returns the error. -/
theorem execute_transformation_unknown
    (df : Table) (s : String) (toks : List Tok) (f : String)
    (interior : List Tok)
    (htok : tokenize (replaceBackticks s) = .ok toks)
    (hbal : balancedToks toks = true)
    (hsplit : splitCall toks = some (f, interior))
    (hf : f ∉ AVAILABLE_TRANSFORMATIONS) :
    execute_transformation df s = .error (unknownTransformationMsg f) ∧
    unknownTransformationMsg f
      = "Unknown transformation: '" ++ f ++ "'. Available transformations: "
        ++ String.intercalate ", " sortedTransformations ∧
    sortedTransformations.Perm AVAILABLE_TRANSFORMATIONS := by
  refine ⟨?_, rfl, sortedTransformations_perm⟩
  unfold execute_transformation
  simp only []
  rw [htok]
  simp only [hbal, if_true]
  rw [hsplit]
  simp only []
  rw [if_neg hf]

/-- Witness for C6 at the concrete formula `frobnicate('x')`. -/
theorem execute_transformation_unknown_witness :
    execute_transformation [("x", [1, 2, 3])] "frobnicate('x')"
      = .error (unknownTransformationMsg "frobnicate") :=
  (execute_transformation_unknown [("x", [1, 2, 3])] "frobnicate('x')"
    [.ident "frobnicate", .lparen, .str "x", .rparen] "frobnicate"
    [.str "x"] rfl rfl rfl (by decide)).1

/-! ## Sandboxed script executor (`analyze.py`, lines 214–473).

`execute_code` parses the submitted code with `ast.parse`, walks the tree
with `SafeCodeValidator`, and only then loads the dataset and `exec`s the
code.  The embedding takes the already-parsed tree (a `Script` below) as
input — the syntax-error branch of the source returns before anything else
happens and no claim concerns it — and is parameterised over the `exec`
step's outcome (`ExecFun`): the final `df` binding (or the exception), the
captured stdout, and the matplotlib figures the script created, which CPython
appends to the library's process-wide figure registry.  The import-commenting
preprocessing of step 5 rewrites source lines, below the AST level of this
model, and alters no validation or registry behaviour. -/

mutual

/-- Python expressions, restricted to the shapes `SafeCodeValidator`
distinguishes: names, literals, attribute access, calls and binary
operations.  Argument lists are a mutual inductive (`PArgs`) rather than a
`List` so the structural recursions below stay elementary. -/
inductive PExpr
  | name (id : String)
  | numLit (n : Int)
  | strLit (s : String)
  | attr (value : PExpr) (fieldName : String)
  | call (func : PExpr) (args : PArgs)
  | binop (l r : PExpr)

inductive PArgs
  | nil
  | cons (head : PExpr) (tail : PArgs)

end

/-- Python statements as far as the validator distinguishes them:
expression statements, assignments, `import a, b` (dotted module names kept
whole, as in `ast.alias.name`) and `from m import n` (`module` is `None`
for a relative `from . import n`). -/
inductive PStmt
  | exprStmt (e : PExpr)
  | assign (target : String) (value : PExpr)
  | imprt (names : List String)
  | importFrom (module : Option String) (names : List String)

abbrev Script := List PStmt

/-- `SafeCodeValidator.FORBIDDEN_NAMES` (`analyze.py`, lines 216–218). -/
def FORBIDDEN_NAMES : List String :=
  ["eval", "exec", "compile", "__import__", "open", "input",
   "file", "execfile", "reload", "vars", "locals", "globals",
   "dir", "help", "exit", "quit"]

/-- `SafeCodeValidator.FORBIDDEN_MODULES` (`analyze.py`, lines 219–220). -/
def FORBIDDEN_MODULES : List String :=
  ["os", "sys", "subprocess", "socket", "urllib", "requests",
   "shutil", "pickle", "shelve", "multiprocessing", "threading"]

/-- `alias.name.split('.')[0]`: the first dotted component of a module
name. -/
def moduleHead (s : String) : String :=
  String.mk (s.data.takeWhile (fun c => c ≠ '.'))

/-- Sequencing of two validator results: the first error wins (the shape of
`NodeVisitor`'s child walk, which raises on the first offending node). -/
def seqV (a b : Except String Unit) : Except String Unit :=
  match a with
  | .error e => .error e
  | .ok _ => b

theorem seqV_eq_ok_iff (a b : Except String Unit) :
    seqV a b = .ok () ↔ (a = .ok () ∧ b = .ok ()) := by
  cases a with
  | error e =>
      simp only [seqV]
      constructor
      · intro h; cases h
      · intro ⟨h, _⟩; cases h
  | ok u =>
      cases u
      simp [seqV]

/-- The `visit_Call` check on the callee: a bare `Name` in the forbidden set
raises, anything else (attribute chains included) passes. -/
def checkFunc : PExpr → Except String Unit
  | .name id =>
      if FORBIDDEN_NAMES.contains id then .error ("Forbidden function: " ++ id)
      else .ok ()
  | _ => .ok ()

/-- Whether the callee is a bare forbidden `Name`. -/
def checkFuncB : PExpr → Bool
  | .name id => FORBIDDEN_NAMES.contains id
  | _ => false

theorem checkFunc_ne_ok (f : PExpr) (h : checkFuncB f = true) :
    ¬ checkFunc f = .ok () := by
  cases f with
  | name id =>
      simp only [checkFuncB] at h
      simp only [checkFunc]
      rw [if_pos h]
      intro hc
      cases hc
  | numLit n => cases h
  | strLit s => cases h
  | attr v fn => cases h
  | call f2 a2 => cases h
  | binop l r => cases h

mutual

/-- `SafeCodeValidator.visit_Call` plus the generic child walk: a call whose
callee is a bare `Name` in the forbidden set raises; attribute calls
(`obj.method(...)`) are not checked — the name check only sees direct
names, as in the source.  The callee check runs before the children are
visited, as in `visit_Call`. -/
def validateExpr : PExpr → Except String Unit
  | .name _ => .ok ()
  | .numLit _ => .ok ()
  | .strLit _ => .ok ()
  | .attr v _ => validateExpr v
  | .call f args => seqV (checkFunc f) (seqV (validateExpr f) (validateArgs args))
  | .binop l r => seqV (validateExpr l) (validateExpr r)

def validateArgs : PArgs → Except String Unit
  | .nil => .ok ()
  | .cons e rest => seqV (validateExpr e) (validateArgs rest)

end

/-- `visit_Import` / `visit_ImportFrom`: the first dotted component of each
imported module is checked against the forbidden module set. -/
def validateStmt : PStmt → Except String Unit
  | .exprStmt e => validateExpr e
  | .assign _ v => validateExpr v
  | .imprt names => checkImports names
  | .importFrom m _ =>
      match m with
      | some mod =>
          if FORBIDDEN_MODULES.contains (moduleHead mod) then
            .error ("Forbidden import from: " ++ mod)
          else .ok ()
      | Option.none => .ok ()
where
  checkImports : List String → Except String Unit
    | [] => .ok ()
    | n :: rest =>
        if FORBIDDEN_MODULES.contains (moduleHead n) then
          .error ("Forbidden import: " ++ n)
        else checkImports rest

/-- `SafeCodeValidator().visit(tree)` over the whole module body. -/
def validateScript : Script → Except String Unit
  | [] => .ok ()
  | s :: rest => seqV (validateStmt s) (validateScript rest)

mutual

/-- The claim's precondition, stated independently of the validator: the
tree contains a direct call to a forbidden name. -/
def exprForbidden : PExpr → Bool
  | .name _ => false
  | .numLit _ => false
  | .strLit _ => false
  | .attr v _ => exprForbidden v
  | .call f args => checkFuncB f || exprForbidden f || argsForbidden args
  | .binop l r => exprForbidden l || exprForbidden r

def argsForbidden : PArgs → Bool
  | .nil => false
  | .cons e rest => exprForbidden e || argsForbidden rest

end

/-- The tree contains a forbidden import or a direct forbidden call. -/
def stmtForbidden : PStmt → Bool
  | .exprStmt e => exprForbidden e
  | .assign _ v => exprForbidden v
  | .imprt names => names.any (fun n => FORBIDDEN_MODULES.contains (moduleHead n))
  | .importFrom (some m) _ => FORBIDDEN_MODULES.contains (moduleHead m)
  | .importFrom Option.none _ => false

def scriptForbidden (s : Script) : Bool := s.any stmtForbidden

mutual

theorem validateExpr_ne_ok_of_forbidden :
    ∀ e : PExpr, exprForbidden e = true → ¬ validateExpr e = .ok ()
  | .attr v _, h => by
      simp only [exprForbidden] at h
      simpa only [validateExpr] using validateExpr_ne_ok_of_forbidden v h
  | .call f args, h => by
      simp only [exprForbidden, Bool.or_eq_true] at h
      simp only [validateExpr]
      intro hok
      rw [seqV_eq_ok_iff] at hok
      obtain ⟨h1, h2⟩ := hok
      rw [seqV_eq_ok_iff] at h2
      obtain ⟨h2a, h2b⟩ := h2
      rcases h with (h | h) | h
      · exact checkFunc_ne_ok f h h1
      · exact validateExpr_ne_ok_of_forbidden f h h2a
      · exact validateArgs_ne_ok_of_forbidden args h h2b
  | .binop l r, h => by
      simp only [exprForbidden, Bool.or_eq_true] at h
      simp only [validateExpr]
      intro hok
      rw [seqV_eq_ok_iff] at hok
      obtain ⟨h1, h2⟩ := hok
      rcases h with h | h
      · exact validateExpr_ne_ok_of_forbidden l h h1
      · exact validateExpr_ne_ok_of_forbidden r h h2

theorem validateArgs_ne_ok_of_forbidden :
    ∀ as : PArgs, argsForbidden as = true → ¬ validateArgs as = .ok ()
  | .cons e rest, h => by
      simp only [argsForbidden, Bool.or_eq_true] at h
      simp only [validateArgs]
      intro hok
      rw [seqV_eq_ok_iff] at hok
      obtain ⟨h1, h2⟩ := hok
      rcases h with h | h
      · exact validateExpr_ne_ok_of_forbidden e h h1
      · exact validateArgs_ne_ok_of_forbidden rest h h2

end

theorem validateStmt_ne_ok_of_forbidden (s : PStmt)
    (h : stmtForbidden s = true) : ¬ validateStmt s = .ok () := by
  cases s with
  | exprStmt e => exact validateExpr_ne_ok_of_forbidden e h
  | assign t v => exact validateExpr_ne_ok_of_forbidden v h
  | imprt names =>
      simp only [stmtForbidden, List.any_eq_true] at h
      obtain ⟨n, hn, hf⟩ := h
      simp only [validateStmt]
      induction names with
      | nil => cases hn
      | cons m rest ih =>
          simp only [validateStmt.checkImports]
          rcases List.mem_cons.mp hn with he | he
          · subst he
            rw [if_pos hf]
            intro hc
            cases hc
          · by_cases hm : FORBIDDEN_MODULES.contains (moduleHead m)
            · rw [if_pos hm]
              intro hc
              cases hc
            · rw [if_neg hm]
              exact ih he
  | importFrom m names =>
      cases m with
      | some mod =>
          simp only [stmtForbidden] at h
          simp only [validateStmt]
          rw [if_pos h]
          intro hc
          cases hc
      | none => cases h

theorem validateScript_err_of_forbidden (s : Script)
    (h : scriptForbidden s = true) :
    ∃ msg, validateScript s = .error msg := by
  have hne : ¬ validateScript s = .ok () := by
    induction s with
    | nil => cases h
    | cons st rest ih =>
        simp only [scriptForbidden, List.any_cons, Bool.or_eq_true] at h
        simp only [validateScript]
        intro hok
        rw [seqV_eq_ok_iff] at hok
        obtain ⟨h1, h2⟩ := hok
        rcases h with h | h
        · exact validateStmt_ne_ok_of_forbidden st h h1
        · exact ih h h2
  cases hv : validateScript s with
  | error msg => exact ⟨msg, rfl⟩
  | ok u =>
      cases u
      exact absurd hv hne

/-- Outcome of the `exec(processed_code, safe_globals)` step on a given
script and table: the final `df` binding (`none` when the binding is gone or
not table-shaped) or the raised exception with its traceback, the stdout
captured up to completion or failure, and the figures the script created —
which matplotlib appends to its process-wide registry. -/
structure ExecOutcome where
  result : Except (String × String) (Option Table)
  console : String
  figs : List String

abbrev ExecFun := Script → Option Table → ExecOutcome

/-- `CodeExecutionResponse` (`analyze.py`, lines 147–157); the
`analysis_results` extraction of step 10 scans the exec namespace and is
outside the parameterised exec model. -/
structure CodeExecutionResponse where
  success : Bool
  row_count : Option Nat := Option.none
  column_names : Option (List String) := Option.none
  dataset : Option Table := Option.none
  console_output : Option String := Option.none
  plots : Option (List String) := Option.none
  error : Option String := Option.none
  traceback : Option String := Option.none
deriving DecidableEq

/-- `execute_code` (`analyze.py`, lines 243–473) from the point where the
submitted code has parsed, paired with the matplotlib figure registry as
explicit state: validation, then the `exec` step (`execF`), then result
extraction.  Figures created during `exec` join the registry; on the success
path step 9 serialises every open figure (`plt.get_fignums()` is global, so
pre-existing figures are captured too) and `plt.close('all')` empties the
registry; the failure returns do not touch the registry.  Dataset loading is
represented by the `df` argument (its failure branch returns before `exec`
and no claim concerns it). -/
def execute_code_run (out : ExecOutcome) (figRegistry : List String) :
    CodeExecutionResponse × List String :=
  let reg := figRegistry ++ out.figs
  match out.result with
  | .error (e, tr) =>
      ({ success := false, error := some e, traceback := some tr,
         console_output := some out.console }, reg)
  | .ok Option.none =>
      ({ success := false,
         error := some "Code must define or maintain 'df' variable with the dataset" },
       reg)
  | .ok (some result_df) =>
      ({ success := true,
         row_count := some result_df.nrows,
         column_names := some result_df.colNames,
         dataset := some result_df,
         console_output := if out.console = "" then Option.none else some out.console,
         plots := if reg.isEmpty then Option.none else some reg },
       [])

def execute_code (execF : ExecFun) (script : Script) (df : Option Table)
    (figRegistry : List String) : CodeExecutionResponse × List String :=
  match validateScript script with
  | .error e => ({ success := false, error := some e }, figRegistry)
  | .ok _ => execute_code_run (execF script df) figRegistry

/-- C1: a parsed script containing a forbidden import or a direct call to a
forbidden name is rejected by validation: the response is the failure record
carrying the validator's error and nothing else — no dataset, no console
output — the figure registry is untouched, and the whole result is
independent of the `exec` semantics, so no part of the script runs. -/
theorem execute_code_validation_fatal
    (execF execF2 : ExecFun) (script : Script) (df df2 : Option Table)
    (reg : List String)
    (hforb : scriptForbidden script = true) :
    ∃ msg, validateScript script = .error msg ∧
      execute_code execF script df reg
        = ({ success := false, error := some msg }, reg) ∧
      (execute_code execF script df reg).1.dataset = Option.none ∧
      (execute_code execF script df reg).1.console_output = Option.none ∧
      (execute_code execF script df reg).2 = reg ∧
      execute_code execF script df reg = execute_code execF2 script df2 reg := by
  obtain ⟨msg, hmsg⟩ := validateScript_err_of_forbidden script hforb
  refine ⟨msg, hmsg, ?_, ?_, ?_, ?_, ?_⟩
  · unfold execute_code
    rw [hmsg]
  · unfold execute_code
    rw [hmsg]
  · unfold execute_code
    rw [hmsg]
  · unfold execute_code
    rw [hmsg]
  · unfold execute_code
    rw [hmsg]

/-- Witness for C1: the one-statement script `import os` under two exec
semantics that differ in every observable way. -/
def execBoom : ExecFun := fun _ _ =>
  { result := .error ("boom", "trace"), console := "partial", figs := ["f1"] }

/-- An exec outcome that succeeds with an empty table and no output. -/
def execQuiet : ExecFun := fun _ df =>
  { result := .ok df, console := "", figs := [] }

theorem execute_code_validation_fatal_witness :
    ∃ msg, validateScript [PStmt.imprt ["os"]] = .error msg ∧
      execute_code execBoom [PStmt.imprt ["os"]] Option.none []
        = ({ success := false, error := some msg }, []) ∧
      (execute_code execBoom [PStmt.imprt ["os"]] Option.none []).1.dataset
        = Option.none ∧
      (execute_code execBoom [PStmt.imprt ["os"]] Option.none []).1.console_output
        = Option.none ∧
      (execute_code execBoom [PStmt.imprt ["os"]] Option.none []).2 = [] ∧
      execute_code execBoom [PStmt.imprt ["os"]] Option.none []
        = execute_code execQuiet [PStmt.imprt ["os"]] (some [("x", [1])]) [] :=
  execute_code_validation_fatal execBoom execQuiet [PStmt.imprt ["os"]]
    Option.none (some [("x", [1])]) [] (by decide)

/-- The spec sentence of C8, read literally: after every sandboxed execution,
success or failure, the figure registry is empty. -/
def registryAlwaysDrained : Prop :=
  ∀ (execF : ExecFun) (script : Script) (df : Option Table) (reg : List String),
    (execute_code execF script df reg).2 = []

/-- C8 counterexample: a validated script whose `exec` raises after creating
one figure leaves that figure in the registry — the failure return of the
source never reaches the `plt.close('all')` of the success path, so the
figure leaks into the next execution. -/
theorem figure_registry_counterexample : ¬ registryAlwaysDrained := by
  intro h
  have hall := h execBoom [PStmt.assign "y" (PExpr.numLit 1)] Option.none []
  have h2 : (execute_code execBoom [PStmt.assign "y" (PExpr.numLit 1)]
      Option.none []).2 = ["f1"] := rfl
  have : (["f1"] : List String) = [] := h2.symm.trans hall
  cases this

/-- C8 as amended: the registry is drained (emptied) exactly on the success
path — after the figures are serialised — while on a failed execution (exec
exception, or a missing table binding afterwards) the figures created up to
the failure stay in the registry and are observable by a subsequent
execution. -/
theorem figure_registry_amended (execF : ExecFun) (script : Script)
    (df : Option Table) (reg : List String) :
    ((execute_code execF script df reg).1.success = true →
      (execute_code execF script df reg).2 = []) ∧
    (∀ p, validateScript script = .ok () → (execF script df).result = .error p →
      (execute_code execF script df reg).2 = reg ++ (execF script df).figs) ∧
    (validateScript script = .ok () → (execF script df).result = .ok Option.none →
      (execute_code execF script df reg).2 = reg ++ (execF script df).figs) := by
  have hrun_err : ∀ (out : ExecOutcome) (reg0 : List String) (p),
      out.result = .error p → (execute_code_run out reg0).2 = reg0 ++ out.figs := by
    intro out reg0 p h
    obtain ⟨e, tr⟩ := p
    unfold execute_code_run
    rw [h]
  have hrun_missing : ∀ (out : ExecOutcome) (reg0 : List String),
      out.result = .ok Option.none →
        (execute_code_run out reg0).2 = reg0 ++ out.figs := by
    intro out reg0 h
    unfold execute_code_run
    rw [h]
  refine ⟨?_, ?_, ?_⟩
  · intro hs
    unfold execute_code at hs ⊢
    cases hv : validateScript script with
    | error e =>
        rw [hv] at hs
        cases hs
    | ok u =>
        cases u
        rw [hv] at hs
        unfold execute_code_run at hs ⊢
        cases hr : (execF script df).result with
        | error p =>
            obtain ⟨e, tr⟩ := p
            rw [hr] at hs
            cases hs
        | ok o =>
            cases o with
            | none =>
                rw [hr] at hs
                cases hs
            | some t => rfl
  · intro p hv hr
    unfold execute_code
    rw [hv]
    exact hrun_err (execF script df) reg p hr
  · intro hv hr
    unfold execute_code
    rw [hv]
    exact hrun_missing (execF script df) reg hr

/-- Witness for the amended C8: with a pre-existing figure `old` in the
registry, a successful run drains everything, and a failing run that created
`f1` leaves both behind. -/
theorem figure_registry_amended_witness :
    (execute_code execQuiet [PStmt.assign "y" (PExpr.numLit 1)]
        (some [("x", [1])]) ["old"]).2 = [] ∧
    (execute_code execBoom [PStmt.assign "y" (PExpr.numLit 1)]
        Option.none ["old"]).2 = ["old"] ++ ["f1"] := by
  constructor
  · exact (figure_registry_amended execQuiet [PStmt.assign "y" (PExpr.numLit 1)]
      (some [("x", [1])]) ["old"]).1 rfl
  · exact (figure_registry_amended execBoom [PStmt.assign "y" (PExpr.numLit 1)]
      Option.none ["old"]).2.1 ("boom", "trace") rfl rfl

/-! ## Code generator (`code_generator.py`).

`CodeGenerator.generate_full_script` and both language backends are embedded
below.  The regex-based formula rewrites of the source are implemented as
left-to-right scanners over character lists with the same match/replace
semantics (`re.sub` replaces non-overlapping matches left to right, as does
`str.replace`); each carries the source regex in its doc comment. -/

/-- Whitespace as matched by `\s` in the source regexes (`.strip()` strips
the same set). -/
def isWs (c : Char) : Bool := c = ' ' || c = '\t' || c = '\n' || c = '\r'

/-- Python `str.strip()`. -/
def sTrim (s : String) : String :=
  String.mk (((s.data.dropWhile isWs).reverse.dropWhile isWs).reverse)

/-- Left-to-right scan-and-replace driver: at each position, `f` gets the
previous character (for word boundaries) and the remaining input, and may
produce a replacement together with what is left after the match; matches
must consume at least one character (all matchers below do), so fuel equal
to the input length is exact. -/
def scanRw (fuel : Nat)
    (f : Option Char → List Char → Option (List Char × List Char)) :
    Option Char → List Char → List Char
  | _, [] => []
  | prev, c :: rest =>
      match fuel with
      | 0 => c :: rest
      | fuel + 1 =>
          match f prev (c :: rest) with
          | some (rep, rem) =>
              rep ++ scanRw fuel f (rep.getLast?.orElse (fun _ => prev)) rem
          | Option.none => c :: scanRw fuel f (some c) rest

def runScan (f : Option Char → List Char → Option (List Char × List Char))
    (s : String) : String :=
  String.mk (scanRw s.data.length f Option.none s.data)

/-- The remainder of `cs` after the literal prefix `pat`, when present. -/
def dropLit : List Char → List Char → Option (List Char)
  | [], cs => some cs
  | _ :: _, [] => Option.none
  | p :: ps, c :: cs => if c = p then dropLit ps cs else Option.none

/-- Python `str.replace(pat, rep)` for a non-empty pattern. -/
def pyReplace (s pat rep : String) : String :=
  runScan (fun _ cs => (dropLit pat.data cs).map (fun rem => (rep.data, rem))) s

/-- `_convert_backticks_to_quotes_python`: the source regex
``r'`([^`]+)`' → r"'\1'"``. -/
def convert_backticks_to_quotes_python (formula : String) : String :=
  runScan
    (fun _ cs =>
      match cs with
      | '`' :: rest =>
          match takeStr '`' rest with
          | some (content, rem) =>
              if content.isEmpty then Option.none
              else some ('\'' :: content ++ ['\''], rem)
          | Option.none => Option.none
      | _ => Option.none)
    formula

/-- `_normalize_python_column_refs`: the source regex
`df\["([^"]+)"\]` → `df['\1']`. -/
def normalize_python_column_refs (formula : String) : String :=
  runScan
    (fun _ cs =>
      match dropLit ['d', 'f', '[', '"'] cs with
      | Option.none => Option.none
      | some r1 =>
          match takeStr '"' r1 with
          | Option.none => Option.none
          | some (content, r2) =>
              if content.isEmpty then Option.none
              else
                match r2 with
                | ']' :: r3 =>
                    some (['d', 'f', '[', '\''] ++ content ++ ['\'', ']'], r3)
                | _ => Option.none)
    formula

/-- The source's `transform_funcs` list (identical in
`_fix_transformation_function_calls` and `_fix_r_transformation_calls`). -/
def transform_funcs : List String :=
  ["map_binary", "map_categorical", "normalize", "z_score",
   "composite_score", "conditional_value", "conditional_numeric",
   "percentile_rank", "bin_numeric", "log_transform", "winsorize"]

/-- One pass of `_fix_transformation_function_calls` for one function name:
the source regex `\b{func}\s*\((?!df\s*,)` → `{func}(df, `. -/
def fixCallMatcher (fn : String) (prev : Option Char) (cs : List Char) :
    Option (List Char × List Char) :=
  if (match prev with | some p => isIdentChar p | Option.none => false) then
    Option.none
  else
    match dropLit fn.data cs with
    | Option.none => Option.none
    | some r1 =>
        match r1.dropWhile isWs with
        | '(' :: r3 =>
            let lookahead :=
              match dropLit ['d', 'f'] r3 with
              | some r4 =>
                  match r4.dropWhile isWs with
                  | ',' :: _ => true
                  | _ => false
              | Option.none => false
            if lookahead then Option.none
            else some ((fn ++ "(df, ").data, r3)
        | _ => Option.none

/-- `_fix_transformation_function_calls` (and the textually identical
`_fix_r_transformation_calls`): one substitution pass per registered
function name, in source order. -/
def fix_transformation_function_calls (formula : String) : String :=
  transform_funcs.foldl (fun f fn => runScan (fixCallMatcher fn) f) formula

/-- Inner key rewrite of the dict conversion: the source regexes
`'([^']+)':\s*` → `'\1' = ` and the double-quote variant, applied in that
order. -/
def kvMatcher (q : Char) (prev : Option Char) (cs : List Char) :
    Option (List Char × List Char) :=
  match prev with
  | _ =>
      match cs with
      | c :: rest =>
          if c = q then
            match takeStr q rest with
            | some (content, r2) =>
                if content.isEmpty then Option.none
                else
                  match r2 with
                  | ':' :: r3 => some (q :: content ++ [q, ' ', '=', ' '], r3.dropWhile isWs)
                  | _ => Option.none
            | Option.none => Option.none
          else Option.none
      | [] => Option.none

/-- `convert_dict_to_named_vector` of `_convert_formula_to_r`: the source
regex `\{([^}]+)\}` with the captured content run through the two key
rewrites and wrapped in `c(...)`. -/
def dictMatcher (prev : Option Char) (cs : List Char) :
    Option (List Char × List Char) :=
  match prev with
  | _ =>
      match cs with
      | '\x7b' :: rest =>
          match takeStr '\x7d' rest with
          | some (content, rem) =>
              if content.isEmpty then Option.none
              else
                let inner := runScan (kvMatcher '"')
                  (runScan (kvMatcher '\'') (String.mk content))
                some (('c' :: '(' :: inner.data) ++ [')'], rem)
          | Option.none => Option.none
      | _ => Option.none

/-- `convert_df_column` of `_convert_formula_to_r`: the source regexes
`df\["([^"]+)"\]` and `df\['([^']+)'\]`, replaced by the bare column name,
backtick-quoted when it contains a space or starts with a digit. -/
def dfColMatcher (q : Char) (prev : Option Char) (cs : List Char) :
    Option (List Char × List Char) :=
  match prev with
  | _ =>
      match dropLit ['d', 'f', '[', q] cs with
      | Option.none => Option.none
      | some r1 =>
          match takeStr q r1 with
          | Option.none => Option.none
          | some (content, r2) =>
              if content.isEmpty then Option.none
              else
                match r2 with
                | ']' :: r3 =>
                    let quoted :=
                      content.any (fun c => c = ' ')
                        || (match content with
                            | c :: _ => c.isDigit
                            | [] => false)
                    if quoted then some ('`' :: content ++ ['`'], r3)
                    else some (content, r3)
                | _ => Option.none

/-- Python-list-to-R-vector rewrite of `_convert_formula_to_r`: the source
regex `\[([^\]]+)\]` → `c(\1)`. -/
def listMatcher (prev : Option Char) (cs : List Char) :
    Option (List Char × List Char) :=
  match prev with
  | _ =>
      match cs with
      | '[' :: rest =>
          match takeStr ']' rest with
          | some (content, rem) =>
              if content.isEmpty then Option.none
              else some (('c' :: '(' :: content) ++ [')'], rem)
          | Option.none => Option.none
      | _ => Option.none

/-- `df$column` prefix: `df\$` followed by a non-empty `\w+` run. -/
def dfDollar (cs : List Char) : Option (List Char × List Char) :=
  match dropLit ['d', 'f', '$'] cs with
  | Option.none => Option.none
  | some r1 =>
      let w := r1.takeWhile isIdentChar
      if w.isEmpty then Option.none
      else some (w, r1.dropWhile isIdentChar)

/-- Quantile rewrite of `_convert_formula_to_r`: the source regex
`(df\$\w+)\.quantile\(([^)]+)\)` → `quantile(\1, probs=\2, na.rm=TRUE)`. -/
def quantileMatcher (prev : Option Char) (cs : List Char) :
    Option (List Char × List Char) :=
  match prev with
  | _ =>
      match dfDollar cs with
      | Option.none => Option.none
      | some (w, r1) =>
          match dropLit ".quantile(".data r1 with
          | Option.none => Option.none
          | some r2 =>
              match takeStr ')' r2 with
              | Option.none => Option.none
              | some (content, r3) =>
                  if content.isEmpty then Option.none
                  else some (("quantile(df$".data ++ w ++ ", probs=".data
                    ++ content ++ ", na.rm=TRUE)".data), r3)

/-- Method-call rewrite of `_convert_formula_to_r`: the source regexes
`(df\$\w+)\.{py}\(\)` → `{r}(\1, na.rm=TRUE)` for
min/max/mean/median/std/sum. -/
def methodMatcher (py r : String) (prev : Option Char) (cs : List Char) :
    Option (List Char × List Char) :=
  match prev with
  | _ =>
      match dfDollar cs with
      | Option.none => Option.none
      | some (w, r1) =>
          match dropLit ("." ++ py ++ "()").data r1 with
          | Option.none => Option.none
          | some r2 =>
              some ((r ++ "(df$").data ++ w ++ ", na.rm=TRUE)".data, r2)

/-- `_convert_formula_to_r` (`code_generator.py`, lines 505–570), with every
rewrite applied in source order. -/
def convert_formula_to_r (formula : String) : String :=
  let r := pyReplace formula "np.log" "log"
  let r := pyReplace r "np.exp" "exp"
  let r := pyReplace r "np.sqrt" "sqrt"
  let r := pyReplace r "np.abs" "abs"
  let r := pyReplace r "pd.cut" "cut"
  let r := runScan dictMatcher r
  let r := runScan (dfColMatcher '"') r
  let r := runScan (dfColMatcher '\'') r
  let r := runScan listMatcher r
  let r := pyReplace r "bins=" "breaks="
  let r := runScan quantileMatcher r
  let r := runScan (methodMatcher "min" "min") r
  let r := runScan (methodMatcher "max" "max") r
  let r := runScan (methodMatcher "mean" "mean") r
  let r := runScan (methodMatcher "median" "median") r
  let r := runScan (methodMatcher "std" "sd") r
  let r := runScan (methodMatcher "sum" "sum") r
  r

/-- `_fix_r_transformation_calls`: textually identical to the Python fixer
in the source. -/
def fix_r_transformation_calls (formula : String) : String :=
  fix_transformation_function_calls formula

/-- `_quote_r_column`: backtick-quote a column name containing a space,
starting with a digit, or not alphanumeric after removing underscores
(Python's `''.isalnum()` is `False`, so an all-underscore name is quoted;
on the empty string the source's `col_name[0]` raises `IndexError` — the
model totalizes that corner to a backtick-quoted result, and no theorem
instantiates an empty column name). -/
def quote_r_column (col_name : String) : String :=
  let stripped := col_name.data.filter (fun c => c ≠ '_')
  if col_name.data.any (fun c => c = ' ')
      || (match col_name.data with
          | c :: _ => c.isDigit
          | [] => false)
      || stripped.isEmpty
      || ¬ stripped.all (fun c => c.isAlpha || c.isDigit) then
    "`" ++ col_name ++ "`"
  else col_name

/-- `execution_spec` of one saved analysis: library, function and the
parameter-role-to-column map. -/
structure ExecutionSpec where
  library : String
  function : String
  param_map : List (String × String)

/-- One saved analysis record as the generator reads it
(`analysis.get('execution_spec')`). -/
structure GenAnalysis where
  execution_spec : Option ExecutionSpec

/-- One saved derived variable as the generator reads it: `formula` holds
`var.get('formula') or var.get('transform_formula', '')` (empty when both
are missing), `formula_type` holds `var.get('formula_type', 'eval')`. -/
structure GenVariable where
  name : String
  formula : String
  formula_type : String

/-- The wrangling configuration as the generator reads it. -/
structure WranglingConfig where
  label_standardization : List (String × List (String × String))
  missing_data_strategy : List (String × String)
  duplicate_handling : Option String
  duplicate_id_column : Option String

/-- `param_map.get(key)`. -/
def pmGet (m : List (String × String)) (k : String) : Option String :=
  match m.find? (fun kv => kv.1 = k) with
  | some kv => some kv.2
  | Option.none => Option.none

/-- Python truthiness of an optional string (`None` and `''` are falsy). -/
def truthyS : Option String → Bool
  | some s => ¬ s.isEmpty
  | Option.none => false

/-- Python `a or b` on optional strings: `a` when truthy, else `b`. -/
def pyOr (a b : Option String) : Option String :=
  if truthyS a then a else b

/-- Python `repr` of a string-to-string dict in insertion order, as
interpolated by the cleaning generator's f-string. -/
def pyDictRepr (m : List (String × String)) : String :=
  "\x7b" ++
    String.intercalate ", " (m.map (fun kv => "'" ++ kv.1 ++ "': '" ++ kv.2 ++ "'"))
    ++ "\x7d"

/-- `_generate_cleaning_code_python` (`code_generator.py`, lines 92–128). -/
def generate_cleaning_code_python (w : WranglingConfig) : String :=
  let labelLines := w.label_standardization.filterMap (fun cm =>
    if cm.2.isEmpty then Option.none
    else some ("df['" ++ cm.1 ++ "'] = df['" ++ cm.1 ++ "'].replace("
      ++ pyDictRepr cm.2 ++ ")"))
  let missingLines := w.missing_data_strategy.filterMap (fun cs =>
    if cs.2 = "drop" then
      some ("df = df.dropna(subset=['" ++ cs.1 ++ "'])")
    else if cs.2 = "impute_mean" then
      some ("df['" ++ cs.1 ++ "'].fillna(df['" ++ cs.1 ++ "'].mean(), inplace=True)")
    else if cs.2 = "impute_median" then
      some ("df['" ++ cs.1 ++ "'].fillna(df['" ++ cs.1 ++ "'].median(), inplace=True)")
    else Option.none)
  let dupLines :=
    match w.duplicate_handling with
    | some "drop_all" =>
        (if truthyS w.duplicate_id_column then
          ["df = df.drop_duplicates(subset=['" ++ w.duplicate_id_column.getD ""
            ++ "'], keep=False)"]
         else ["df = df.drop_duplicates(keep=False)"])
    | some "keep_first" =>
        (if truthyS w.duplicate_id_column then
          ["df = df.drop_duplicates(subset=['" ++ w.duplicate_id_column.getD ""
            ++ "'], keep='first')"]
         else ["df = df.drop_duplicates(keep='first')"])
    | _ => []
  String.intercalate "\n"
    ("# === Data Cleaning ===" :: (labelLines ++ missingLines ++ dupLines))

/-- `_generate_transform_code_python` (`code_generator.py`,
lines 130–167). -/
def generate_transform_code_python (dvs : List GenVariable) : String :=
  String.intercalate "\n" ("# === Derived Variables ===" ::
    dvs.filterMap (fun var =>
      if var.formula = "" then Option.none
      else
        let f := convert_backticks_to_quotes_python var.formula
        let f := normalize_python_column_refs f
        let f := fix_transformation_function_calls f
        let ft := var.formula_type
        if ft = "eval" || ft = "expression" || ft = "python" then
          some ("df['" ++ var.name ++ "'] = " ++ f)
        else if ft = "function" then
          some ("df['" ++ var.name ++ "'] = df.apply(lambda row: " ++ f ++ ", axis=1)")
        else some ("df['" ++ var.name ++ "'] = " ++ f)))

/-- Per-analysis statement lines of `_generate_analysis_code_python`
(`code_generator.py`, lines 211–353): one block per supported
scipy.stats/statsmodels combination; anything else contributes nothing. -/
def analysisLinesPython (a : GenAnalysis) : List String :=
  match a.execution_spec with
  | Option.none => []
  | some spec =>
      let pm := spec.param_map
      if spec.library = "scipy.stats" then
        if spec.function = "ttest_ind" then
          let g := pmGet pm "group_col"
          let v := pmGet pm "value_col"
          if truthyS g && truthyS v then
            let gc := g.getD ""
            let vc := v.getD ""
            ["# Independent t-test: " ++ vc ++ " by " ++ gc,
             "groups = df['" ++ gc ++ "'].unique()",
             "group1 = df[df['" ++ gc ++ "'] == groups[0]]['" ++ vc ++ "']",
             "group2 = df[df['" ++ gc ++ "'] == groups[1]]['" ++ vc ++ "']",
             "t_stat, p_value = stats.ttest_ind(group1, group2)",
             "print(f'Independent t-test: t=\x7bt_stat:.3f\x7d, p=\x7bp_value:.4f\x7d')",
             ""]
          else []
        else if spec.function = "ttest_rel" then
          let c1 := pmGet pm "col1"
          let c2 := pmGet pm "col2"
          if truthyS c1 && truthyS c2 then
            ["# Paired t-test: " ++ c1.getD "" ++ " vs " ++ c2.getD "",
             "t_stat, p_value = stats.ttest_rel(df['" ++ c1.getD "" ++ "'], df['"
               ++ c2.getD "" ++ "'])",
             "print(f'Paired t-test: t=\x7bt_stat:.3f\x7d, p=\x7bp_value:.4f\x7d')",
             ""]
          else []
        else if spec.function = "f_oneway" then
          let g := pmGet pm "group_col"
          let v := pmGet pm "value_col"
          if truthyS g && truthyS v then
            let gc := g.getD ""
            let vc := v.getD ""
            ["# One-way ANOVA: " ++ vc ++ " by " ++ gc,
             "groups = df['" ++ gc ++ "'].unique()",
             "group_data = [df[df['" ++ gc ++ "'] == g]['" ++ vc ++ "'] for g in groups]",
             "f_stat, p_value = stats.f_oneway(*group_data)",
             "print(f'One-way ANOVA: F=\x7bf_stat:.3f\x7d, p=\x7bp_value:.4f\x7d')",
             ""]
          else []
        else if spec.function = "pearsonr" then
          let x := pmGet pm "x_col"
          let y := pmGet pm "y_col"
          if truthyS x && truthyS y then
            ["# Pearson correlation: " ++ x.getD "" ++ " vs " ++ y.getD "",
             "r, p_value = stats.pearsonr(df['" ++ x.getD "" ++ "'], df['"
               ++ y.getD "" ++ "'])",
             "print(f'Pearson correlation: r=\x7br:.3f\x7d, p=\x7bp_value:.4f\x7d')",
             ""]
          else []
        else if spec.function = "spearmanr" then
          let x := pmGet pm "x_col"
          let y := pmGet pm "y_col"
          if truthyS x && truthyS y then
            ["# Spearman correlation: " ++ x.getD "" ++ " vs " ++ y.getD "",
             "rho, p_value = stats.spearmanr(df['" ++ x.getD "" ++ "'], df['"
               ++ y.getD "" ++ "'])",
             "print(f'Spearman correlation: rho=\x7brho:.3f\x7d, p=\x7bp_value:.4f\x7d')",
             ""]
          else []
        else if spec.function = "kendalltau" then
          let x := pmGet pm "x_col"
          let y := pmGet pm "y_col"
          if truthyS x && truthyS y then
            ["# Kendall's tau correlation: " ++ x.getD "" ++ " vs " ++ y.getD "",
             "tau, p_value = stats.kendalltau(df['" ++ x.getD "" ++ "'], df['"
               ++ y.getD "" ++ "'])",
             "print(f'Kendall tau correlation: tau=\x7btau:.3f\x7d, p=\x7bp_value:.4f\x7d')",
             ""]
          else []
        else if spec.function = "chi2_contingency" then
          let r := pyOr (pmGet pm "row_col") (pmGet pm "var1")
          let c := pyOr (pmGet pm "col_col") (pmGet pm "var2")
          if truthyS r && truthyS c then
            ["# Chi-square test: " ++ r.getD "" ++ " vs " ++ c.getD "",
             "contingency_table = pd.crosstab(df['" ++ r.getD "" ++ "'], df['"
               ++ c.getD "" ++ "'])",
             "chi2, p_value, dof, expected = stats.chi2_contingency(contingency_table)",
             "print(f'Chi-square test: chi2=\x7bchi2:.3f\x7d, p=\x7bp_value:.4f\x7d, dof=\x7bdof\x7d')",
             ""]
          else []
        else if spec.function = "mannwhitneyu" then
          let g := pmGet pm "group_col"
          let v := pmGet pm "value_col"
          if truthyS g && truthyS v then
            let gc := g.getD ""
            let vc := v.getD ""
            ["# Mann-Whitney U test: " ++ vc ++ " by " ++ gc,
             "groups = df['" ++ gc ++ "'].unique()",
             "group1 = df[df['" ++ gc ++ "'] == groups[0]]['" ++ vc ++ "'].dropna()",
             "group2 = df[df['" ++ gc ++ "'] == groups[1]]['" ++ vc ++ "'].dropna()",
             "u_stat, p_value = stats.mannwhitneyu(group1, group2, alternative='two-sided')",
             "print(f'Mann-Whitney U test: U=\x7bu_stat:.3f\x7d, p=\x7bp_value:.4f\x7d')",
             ""]
          else []
        else if spec.function = "wilcoxon" then
          let c1 := pmGet pm "col1"
          let c2 := pmGet pm "col2"
          if truthyS c1 && truthyS c2 then
            ["# Wilcoxon signed-rank test: " ++ c1.getD "" ++ " vs " ++ c2.getD "",
             "w_stat, p_value = stats.wilcoxon(df['" ++ c1.getD "" ++ "'], df['"
               ++ c2.getD "" ++ "'])",
             "print(f'Wilcoxon test: W=\x7bw_stat:.3f\x7d, p=\x7bp_value:.4f\x7d')",
             ""]
          else []
        else if spec.function = "kruskal" then
          let g := pmGet pm "group_col"
          let v := pmGet pm "value_col"
          if truthyS g && truthyS v then
            let gc := g.getD ""
            let vc := v.getD ""
            ["# Kruskal-Wallis test: " ++ vc ++ " by " ++ gc,
             "groups = df['" ++ gc ++ "'].unique()",
             "group_data = [df[df['" ++ gc ++ "'] == g]['" ++ vc
               ++ "'].dropna() for g in groups]",
             "h_stat, p_value = stats.kruskal(*group_data)",
             "print(f'Kruskal-Wallis test: H=\x7bh_stat:.3f\x7d, p=\x7bp_value:.4f\x7d')",
             ""]
          else []
        else []
      else if spec.library = "statsmodels" || spec.library = "statsmodels.formula.api" then
        if spec.function = "ols" then
          let d := pmGet pm "dependent"
          let i := pmGet pm "independent"
          if truthyS d && truthyS i then
            let dep := d.getD ""
            let ind := i.getD ""
            ["# OLS Regression: " ++ dep ++ " ~ " ++ ind,
             "import statsmodels.formula.api as smf",
             "model = smf.ols('" ++ dep ++ " ~ " ++ ind ++ "', data=df).fit()",
             "print(model.summary())",
             "print(f'R-squared: \x7bmodel.rsquared:.3f\x7d, Adj R-squared: \x7bmodel.rsquared_adj:.3f\x7d')",
             ""]
          else []
        else []
      else []

/-- `_generate_analysis_code_python`: the section header followed by every
analysis's contribution. -/
def generate_analysis_code_python (analyses : List GenAnalysis) : String :=
  String.intercalate "\n"
    ("# === Statistical Analyses ===" :: (analyses.map analysisLinesPython).flatten)

/-- `_generate_cleaning_code_r` (`code_generator.py`, lines 411–452). -/
def generate_cleaning_code_r (w : WranglingConfig) : String :=
  let labelLines := w.label_standardization.filterMap (fun cm =>
    if cm.2.isEmpty then Option.none
    else
      let recode_pairs := String.intercalate ", "
        (cm.2.map (fun kv => "'" ++ kv.1 ++ "' = '" ++ kv.2 ++ "'"))
      let col_ref := quote_r_column cm.1
      some ("df <- df %>% mutate(" ++ col_ref ++ " = recode(" ++ col_ref ++ ", "
        ++ recode_pairs ++ "))"))
  let missingLines := w.missing_data_strategy.filterMap (fun cs =>
    let col_ref := quote_r_column cs.1
    if cs.2 = "drop" then
      some ("df <- df %>% drop_na(" ++ col_ref ++ ")")
    else if cs.2 = "impute_mean" then
      some ("df <- df %>% mutate(" ++ col_ref ++ " = ifelse(is.na(" ++ col_ref
        ++ "), mean(" ++ col_ref ++ ", na.rm=TRUE), " ++ col_ref ++ "))")
    else if cs.2 = "impute_median" then
      some ("df <- df %>% mutate(" ++ col_ref ++ " = ifelse(is.na(" ++ col_ref
        ++ "), median(" ++ col_ref ++ ", na.rm=TRUE), " ++ col_ref ++ "))")
    else Option.none)
  let dupLines :=
    match w.duplicate_handling with
    | some h =>
        if h = "drop_all" || h = "keep_first" then
          (if truthyS w.duplicate_id_column then
            let col_ref := quote_r_column (w.duplicate_id_column.getD "")
            if h = "keep_first" then
              ["df <- df %>% distinct(" ++ col_ref ++ ", .keep_all = TRUE)"]
            else
              ["df <- df %>% group_by(" ++ col_ref
                ++ ") %>% filter(n() == 1) %>% ungroup()"]
           else ["df <- df %>% distinct()"])
        else []
    | Option.none => []
  String.intercalate "\n"
    ("# === Data Cleaning ===" :: (labelLines ++ missingLines ++ dupLines))

/-- `_generate_transform_code_r` (`code_generator.py`, lines 461–481). -/
def generate_transform_code_r (dvs : List GenVariable) : String :=
  String.intercalate "\n" ("# === Derived Variables ===" ::
    dvs.filterMap (fun var =>
      if var.formula = "" then Option.none
      else
        let r_formula := convert_formula_to_r var.formula
        let r_formula := fix_r_transformation_calls r_formula
        some ("df <- df %>% mutate(" ++ var.name ++ " = " ++ r_formula ++ ")")))

/-- Per-analysis statement lines of `_generate_analysis_code_r`
(`code_generator.py`, lines 572–698): the R side matches on the function
name alone — the library field is not consulted. -/
def analysisLinesR (a : GenAnalysis) : List String :=
  match a.execution_spec with
  | Option.none => []
  | some spec =>
      let pm := spec.param_map
      if spec.function = "ttest_ind" then
        let g := pmGet pm "group_col"
        let v := pmGet pm "value_col"
        if truthyS g && truthyS v then
          ["# Independent t-test: " ++ v.getD "" ++ " by " ++ g.getD "",
           "result <- t.test(" ++ v.getD "" ++ " ~ " ++ g.getD "" ++ ", data = df)",
           "print(result)",
           ""]
        else []
      else if spec.function = "ttest_rel" then
        let c1 := pmGet pm "col1"
        let c2 := pmGet pm "col2"
        if truthyS c1 && truthyS c2 then
          ["# Paired t-test: " ++ c1.getD "" ++ " vs " ++ c2.getD "",
           "result <- t.test(df$" ++ c1.getD "" ++ ", df$" ++ c2.getD ""
             ++ ", paired = TRUE)",
           "print(result)",
           ""]
        else []
      else if spec.function = "f_oneway" then
        let g := pmGet pm "group_col"
        let v := pmGet pm "value_col"
        if truthyS g && truthyS v then
          ["# One-way ANOVA: " ++ v.getD "" ++ " by " ++ g.getD "",
           "result <- aov(" ++ v.getD "" ++ " ~ " ++ g.getD "" ++ ", data = df)",
           "print(summary(result))",
           ""]
        else []
      else if spec.function = "pearsonr" then
        let x := pmGet pm "x_col"
        let y := pmGet pm "y_col"
        if truthyS x && truthyS y then
          ["# Pearson correlation: " ++ x.getD "" ++ " vs " ++ y.getD "",
           "result <- cor.test(df$" ++ x.getD "" ++ ", df$" ++ y.getD ""
             ++ ", method = 'pearson')",
           "print(result)",
           ""]
        else []
      else if spec.function = "spearmanr" then
        let x := pmGet pm "x_col"
        let y := pmGet pm "y_col"
        if truthyS x && truthyS y then
          ["# Spearman correlation: " ++ x.getD "" ++ " vs " ++ y.getD "",
           "result <- cor.test(df$" ++ x.getD "" ++ ", df$" ++ y.getD ""
             ++ ", method = 'spearman')",
           "print(result)",
           ""]
        else []
      else if spec.function = "kendalltau" then
        let x := pmGet pm "x_col"
        let y := pmGet pm "y_col"
        if truthyS x && truthyS y then
          ["# Kendall's tau correlation: " ++ x.getD "" ++ " vs " ++ y.getD "",
           "result <- cor.test(df$" ++ x.getD "" ++ ", df$" ++ y.getD ""
             ++ ", method = 'kendall')",
           "print(result)",
           ""]
        else []
      else if spec.function = "chi2_contingency" then
        let r := pyOr (pmGet pm "row_col") (pmGet pm "var1")
        let c := pyOr (pmGet pm "col_col") (pmGet pm "var2")
        if truthyS r && truthyS c then
          ["# Chi-square test: " ++ r.getD "" ++ " vs " ++ c.getD "",
           "contingency_table <- table(df$" ++ r.getD "" ++ ", df$" ++ c.getD "" ++ ")",
           "result <- chisq.test(contingency_table)",
           "print(result)",
           ""]
        else []
      else if spec.function = "mannwhitneyu" then
        let g := pmGet pm "group_col"
        let v := pmGet pm "value_col"
        if truthyS g && truthyS v then
          ["# Mann-Whitney U test: " ++ v.getD "" ++ " by " ++ g.getD "",
           "result <- wilcox.test(" ++ v.getD "" ++ " ~ " ++ g.getD "" ++ ", data = df)",
           "print(result)",
           ""]
        else []
      else if spec.function = "wilcoxon" then
        let c1 := pmGet pm "col1"
        let c2 := pmGet pm "col2"
        if truthyS c1 && truthyS c2 then
          ["# Wilcoxon signed-rank test: " ++ c1.getD "" ++ " vs " ++ c2.getD "",
           "result <- wilcox.test(df$" ++ c1.getD "" ++ ", df$" ++ c2.getD ""
             ++ ", paired = TRUE)",
           "print(result)",
           ""]
        else []
      else if spec.function = "kruskal" then
        let g := pmGet pm "group_col"
        let v := pmGet pm "value_col"
        if truthyS g && truthyS v then
          ["# Kruskal-Wallis test: " ++ v.getD "" ++ " by " ++ g.getD "",
           "result <- kruskal.test(" ++ v.getD "" ++ " ~ " ++ g.getD ""
             ++ ", data = df)",
           "print(result)",
           ""]
        else []
      else if spec.function = "ols" then
        let d := pmGet pm "dependent"
        let i := pmGet pm "independent"
        if truthyS d && truthyS i then
          ["# OLS Regression: " ++ d.getD "" ++ " ~ " ++ i.getD "",
           "model <- lm(" ++ d.getD "" ++ " ~ " ++ i.getD "" ++ ", data = df)",
           "print(summary(model))",
           ""]
        else []
      else []

/-- `_generate_analysis_code_r`: the section header followed by every
analysis's contribution. -/
def generate_analysis_code_r (analyses : List GenAnalysis) : String :=
  String.intercalate "\n"
    ("# === Statistical Analyses ===" :: (analyses.map analysisLinesR).flatten)

/-- The optional sections of both scripts: a section is included when its
config argument is truthy (`if wrangling_config:` etc.; for the lists an
empty list is falsy) and its generated text is non-blank after `.strip()` —
the latter always holds since each section opens with its `# === ... ===`
header. -/
def sectionParts (cfgPresent : Bool) (code : String) : List String :=
  if cfgPresent && (sTrim code ≠ "") then [code, ""] else []

/-- `_generate_python_script` (`code_generator.py`, lines 38–90). -/
def generate_python_script (session_id : String) (w : Option WranglingConfig)
    (dv : Option (List GenVariable)) (an : Option (List GenAnalysis)) : String :=
  let header :=
    ["# Inferra Data Analysis - Python",
     "# Auto-generated from UI operations",
     "",
     "import pandas as pd",
     "import numpy as np",
     "from scipy import stats",
     "import seaborn as sns",
     "import matplotlib.pyplot as plt",
     "",
     "# Dataset is pre-loaded as 'df' by the execution environment",
     "# Session: " ++ session_id,
     ""]
  let cleaning :=
    match w with
    | some wc => sectionParts true (generate_cleaning_code_python wc)
    | Option.none => []
  let transforms :=
    match dv with
    | some l => sectionParts (!l.isEmpty) (generate_transform_code_python l)
    | Option.none => []
  let analyses :=
    match an with
    | some l => sectionParts (!l.isEmpty) (generate_analysis_code_python l)
    | Option.none => []
  let summary :=
    ["# Display summary",
     "print(f'Dataset shape: \x7bdf.shape\x7d')",
     "print(f'Columns: \x7blist(df.columns)\x7d')",
     "print(df.head())"]
  String.intercalate "\n" (header ++ cleaning ++ transforms ++ analyses ++ summary)

/-- `_generate_r_script` (`code_generator.py`, lines 359–409). -/
def generate_r_script (session_id : String) (w : Option WranglingConfig)
    (dv : Option (List GenVariable)) (an : Option (List GenAnalysis)) : String :=
  let header :=
    ["# Inferra Data Analysis - R",
     "# Auto-generated from UI operations",
     "",
     "library(dplyr)",
     "library(tidyr)",
     "library(ggplot2)",
     "",
     "# Dataset is pre-loaded as 'df' by the execution environment",
     "# Session: " ++ session_id,
     ""]
  let cleaning :=
    match w with
    | some wc => sectionParts true (generate_cleaning_code_r wc)
    | Option.none => []
  let transforms :=
    match dv with
    | some l => sectionParts (!l.isEmpty) (generate_transform_code_r l)
    | Option.none => []
  let analyses :=
    match an with
    | some l => sectionParts (!l.isEmpty) (generate_analysis_code_r l)
    | Option.none => []
  let summary :=
    ["# Display summary",
     "cat('Dataset dimensions:', nrow(df), 'rows x', ncol(df), 'columns\\n')",
     "cat('Columns:', paste(colnames(df), collapse=', '), '\\n')",
     "print(head(df))"]
  String.intercalate "\n" (header ++ cleaning ++ transforms ++ analyses ++ summary)

/-- `CodeGenerator.generate_full_script` (`code_generator.py`,
lines 13–32): dispatch on the target language; anything other than exactly
`python` or `r` raises `ValueError(f"Unsupported language: {language}")`. -/
def generate_full_script (language session_id : String)
    (wrangling_config : Option WranglingConfig)
    (derived_variables : Option (List GenVariable))
    (analyses : Option (List GenAnalysis)) : Except String String :=
  if language = "python" then
    .ok (generate_python_script session_id wrangling_config derived_variables analyses)
  else if language = "r" then
    .ok (generate_r_script session_id wrangling_config derived_variables analyses)
  else
    .error ("Unsupported language: " ++ language)

/-- The supported scipy function names of the Python analysis generator. -/
def scipyFunctions : List String :=
  ["ttest_ind", "ttest_rel", "f_oneway", "pearsonr", "spearmanr",
   "kendalltau", "chi2_contingency", "mannwhitneyu", "wilcoxon", "kruskal"]

/-- A library/function combination has a Python statement template. -/
def pyHasTemplate (a : GenAnalysis) : Bool :=
  match a.execution_spec with
  | Option.none => false
  | some spec =>
      (spec.library = "scipy.stats" && scipyFunctions.contains spec.function)
        || ((spec.library = "statsmodels"
              || spec.library = "statsmodels.formula.api")
            && spec.function = "ols")

/-- A function name has an R statement template (the R generator ignores
the library field). -/
def rHasTemplate (a : GenAnalysis) : Bool :=
  match a.execution_spec with
  | Option.none => false
  | some spec => (scipyFunctions ++ ["ols"]).contains spec.function

theorem analysisLinesPython_nil :
    ∀ a : GenAnalysis, pyHasTemplate a = false → analysisLinesPython a = []
  | ⟨Option.none⟩, _ => rfl
  | ⟨some spec⟩, h => by
      unfold pyHasTemplate at h
      unfold analysisLinesPython
      dsimp only at h ⊢
      have hA : (decide (spec.library = "scipy.stats")
          && scipyFunctions.contains spec.function) = false := by
        cases hx : (decide (spec.library = "scipy.stats")
            && scipyFunctions.contains spec.function) with
        | false => rfl
        | true => rw [hx] at h; simp at h
      have hB : ((decide (spec.library = "statsmodels")
          || decide (spec.library = "statsmodels.formula.api"))
          && decide (spec.function = "ols")) = false := by
        cases hx : ((decide (spec.library = "statsmodels")
            || decide (spec.library = "statsmodels.formula.api"))
            && decide (spec.function = "ols")) with
        | false => rfl
        | true => rw [hx] at h; simp at h
      by_cases hl : spec.library = "scipy.stats"
      · have hfn : scipyFunctions.contains spec.function = false := by
          cases hc : scipyFunctions.contains spec.function with
          | false => rfl
          | true =>
              rw [hl, hc] at hA
              simp at hA
        have t1 : ¬ spec.function = "ttest_ind" := by
          intro he; rw [he] at hfn; simp [scipyFunctions] at hfn
        have t2 : ¬ spec.function = "ttest_rel" := by
          intro he; rw [he] at hfn; simp [scipyFunctions] at hfn
        have t3 : ¬ spec.function = "f_oneway" := by
          intro he; rw [he] at hfn; simp [scipyFunctions] at hfn
        have t4 : ¬ spec.function = "pearsonr" := by
          intro he; rw [he] at hfn; simp [scipyFunctions] at hfn
        have t5 : ¬ spec.function = "spearmanr" := by
          intro he; rw [he] at hfn; simp [scipyFunctions] at hfn
        have t6 : ¬ spec.function = "kendalltau" := by
          intro he; rw [he] at hfn; simp [scipyFunctions] at hfn
        have t7 : ¬ spec.function = "chi2_contingency" := by
          intro he; rw [he] at hfn; simp [scipyFunctions] at hfn
        have t8 : ¬ spec.function = "mannwhitneyu" := by
          intro he; rw [he] at hfn; simp [scipyFunctions] at hfn
        have t9 : ¬ spec.function = "wilcoxon" := by
          intro he; rw [he] at hfn; simp [scipyFunctions] at hfn
        have t10 : ¬ spec.function = "kruskal" := by
          intro he; rw [he] at hfn; simp [scipyFunctions] at hfn
        rw [if_pos hl, if_neg t1, if_neg t2, if_neg t3, if_neg t4, if_neg t5,
          if_neg t6, if_neg t7, if_neg t8, if_neg t9, if_neg t10]
      · rw [if_neg hl]
        by_cases hb : (decide (spec.library = "statsmodels")
            || decide (spec.library = "statsmodels.formula.api")) = true
        · have hols : ¬ spec.function = "ols" := by
            rw [hb] at hB
            simp at hB
            intro he
            rw [he] at hB
            simp at hB
          rw [if_pos hb, if_neg hols]
        · rw [if_neg hb]

theorem analysisLinesR_nil :
    ∀ a : GenAnalysis, rHasTemplate a = false → analysisLinesR a = []
  | ⟨Option.none⟩, _ => rfl
  | ⟨some spec⟩, h => by
      unfold rHasTemplate at h
      unfold analysisLinesR
      dsimp only at h ⊢
      have t1 : ¬ spec.function = "ttest_ind" := by
        intro he; rw [he] at h; simp [scipyFunctions] at h
      have t2 : ¬ spec.function = "ttest_rel" := by
        intro he; rw [he] at h; simp [scipyFunctions] at h
      have t3 : ¬ spec.function = "f_oneway" := by
        intro he; rw [he] at h; simp [scipyFunctions] at h
      have t4 : ¬ spec.function = "pearsonr" := by
        intro he; rw [he] at h; simp [scipyFunctions] at h
      have t5 : ¬ spec.function = "spearmanr" := by
        intro he; rw [he] at h; simp [scipyFunctions] at h
      have t6 : ¬ spec.function = "kendalltau" := by
        intro he; rw [he] at h; simp [scipyFunctions] at h
      have t7 : ¬ spec.function = "chi2_contingency" := by
        intro he; rw [he] at h; simp [scipyFunctions] at h
      have t8 : ¬ spec.function = "mannwhitneyu" := by
        intro he; rw [he] at h; simp [scipyFunctions] at h
      have t9 : ¬ spec.function = "wilcoxon" := by
        intro he; rw [he] at h; simp [scipyFunctions] at h
      have t10 : ¬ spec.function = "kruskal" := by
        intro he; rw [he] at h; simp [scipyFunctions] at h
      have t11 : ¬ spec.function = "ols" := by
        intro he; rw [he] at h; simp [scipyFunctions] at h
      rw [if_neg t1, if_neg t2, if_neg t3, if_neg t4, if_neg t5, if_neg t6,
        if_neg t7, if_neg t8, if_neg t9, if_neg t10, if_neg t11]

/-- C9: `generate_full_script` raises the unsupported-language error exactly
when the requested language is neither `python` nor `r`; for a supported
language it always returns a script string; and an analysis spec whose
library/function combination has no template for the language contributes no
statement lines — the analyses section is unchanged by its removal, and so
is the whole script whenever some other analysis remains. -/
theorem generate_full_script_language_policy
    (language session_id : String) (w : Option WranglingConfig)
    (dv : Option (List GenVariable)) (an : Option (List GenAnalysis))
    (pre post : List GenAnalysis) :
    ((language ≠ "python" ∧ language ≠ "r") ↔
      generate_full_script language session_id w dv an
        = .error ("Unsupported language: " ++ language)) ∧
    ((language = "python" ∨ language = "r") →
      ∃ code, generate_full_script language session_id w dv an = .ok code) ∧
    (∀ bad, pyHasTemplate bad = false →
      (generate_analysis_code_python (pre ++ bad :: post)
        = generate_analysis_code_python (pre ++ post)) ∧
      (pre ++ post ≠ [] →
        generate_full_script "python" session_id w dv (some (pre ++ bad :: post))
          = generate_full_script "python" session_id w dv (some (pre ++ post)))) ∧
    (∀ bad, rHasTemplate bad = false →
      (generate_analysis_code_r (pre ++ bad :: post)
        = generate_analysis_code_r (pre ++ post)) ∧
      (pre ++ post ≠ [] →
        generate_full_script "r" session_id w dv (some (pre ++ bad :: post))
          = generate_full_script "r" session_id w dv (some (pre ++ post)))) := by
  refine ⟨⟨?_, ?_⟩, ?_, ?_, ?_⟩
  · intro ⟨h1, h2⟩
    unfold generate_full_script
    rw [if_neg h1, if_neg h2]
  · intro he
    constructor
    · intro hp
      unfold generate_full_script at he
      rw [if_pos hp] at he
      cases he
    · intro hr
      unfold generate_full_script at he
      by_cases hp : language = "python"
      · rw [if_pos hp] at he
        cases he
      · rw [if_neg hp, if_pos hr] at he
        cases he
  · intro hl
    rcases hl with hp | hr
    · exact ⟨generate_python_script session_id w dv an, by
        unfold generate_full_script
        rw [if_pos hp]⟩
    · by_cases hp : language = "python"
      · exact ⟨generate_python_script session_id w dv an, by
          unfold generate_full_script
          rw [if_pos hp]⟩
      · exact ⟨generate_r_script session_id w dv an, by
          unfold generate_full_script
          rw [if_neg hp, if_pos hr]⟩
  · intro bad hbad
    have hsec : generate_analysis_code_python (pre ++ bad :: post)
        = generate_analysis_code_python (pre ++ post) := by
      unfold generate_analysis_code_python
      rw [List.map_append, List.map_append, List.map_cons,
        analysisLinesPython_nil bad hbad]
      simp
    refine ⟨hsec, ?_⟩
    intro hne
    have h1 : (pre ++ bad :: post).isEmpty = false := by simp
    have h2 : (pre ++ post).isEmpty = false := by
      cases hpp : pre ++ post with
      | nil => exact absurd hpp hne
      | cons x xs => rfl
    show Except.ok (generate_python_script session_id w dv (some (pre ++ bad :: post)))
      = Except.ok (generate_python_script session_id w dv (some (pre ++ post)))
    unfold generate_python_script
    dsimp only
    rw [hsec, h1, h2]
  · intro bad hbad
    have hsec : generate_analysis_code_r (pre ++ bad :: post)
        = generate_analysis_code_r (pre ++ post) := by
      unfold generate_analysis_code_r
      rw [List.map_append, List.map_append, List.map_cons,
        analysisLinesR_nil bad hbad]
      simp
    refine ⟨hsec, ?_⟩
    intro hne
    have h1 : (pre ++ bad :: post).isEmpty = false := by simp
    have h2 : (pre ++ post).isEmpty = false := by
      cases hpp : pre ++ post with
      | nil => exact absurd hpp hne
      | cons x xs => rfl
    show Except.ok (generate_r_script session_id w dv (some (pre ++ bad :: post)))
      = Except.ok (generate_r_script session_id w dv (some (pre ++ post)))
    unfold generate_r_script
    dsimp only
    rw [hsec, h1, h2]

/-- Witness for C9: an unsupported language is rejected, a supported one
produces a script, and dropping an analysis with no template (library
`scipy.stats`, function `shapiro`) leaves both generated scripts
unchanged. -/
theorem generate_full_script_language_policy_witness :
    (generate_full_script "julia" "s1" Option.none Option.none Option.none
      = .error ("Unsupported language: " ++ "julia")) ∧
    (∃ code, generate_full_script "python" "s1" Option.none Option.none
        Option.none = .ok code) ∧
    (generate_full_script "python" "s1" Option.none Option.none
        (some [⟨some ⟨"scipy.stats", "pearsonr", [("x_col", "a"), ("y_col", "b")]⟩⟩,
               ⟨some ⟨"scipy.stats", "shapiro", []⟩⟩])
      = generate_full_script "python" "s1" Option.none Option.none
        (some [⟨some ⟨"scipy.stats", "pearsonr", [("x_col", "a"), ("y_col", "b")]⟩⟩])) ∧
    (generate_full_script "r" "s1" Option.none Option.none
        (some [⟨some ⟨"scipy.stats", "pearsonr", [("x_col", "a"), ("y_col", "b")]⟩⟩,
               ⟨some ⟨"scipy.stats", "shapiro", []⟩⟩])
      = generate_full_script "r" "s1" Option.none Option.none
        (some [⟨some ⟨"scipy.stats", "pearsonr", [("x_col", "a"), ("y_col", "b")]⟩⟩])) := by
  refine ⟨?_, ?_, ?_, ?_⟩
  · exact (generate_full_script_language_policy "julia" "s1" Option.none
      Option.none Option.none [] []).1.mp ⟨by decide, by decide⟩
  · exact (generate_full_script_language_policy "python" "s1" Option.none
      Option.none Option.none [] []).2.1 (Or.inl rfl)
  · exact ((generate_full_script_language_policy "python" "s1" Option.none
      Option.none Option.none
      [⟨some ⟨"scipy.stats", "pearsonr", [("x_col", "a"), ("y_col", "b")]⟩⟩] []).2.2.1
      ⟨some ⟨"scipy.stats", "shapiro", []⟩⟩ rfl).2 (by simp)
  · exact ((generate_full_script_language_policy "r" "s1" Option.none
      Option.none Option.none
      [⟨some ⟨"scipy.stats", "pearsonr", [("x_col", "a"), ("y_col", "b")]⟩⟩] []).2.2.2
      ⟨some ⟨"scipy.stats", "shapiro", []⟩⟩ rfl).2 (by simp)
